/-
Verification of the ruGameboy emulation core against its specification.

The Rust sources are shallowly embedded: machine bytes and words are `Nat`
with explicit `% 256` / `% 65536` (or masking) exactly where the Rust code
wraps; `u8`/`u16` arithmetic written with the unchecked `+` / `-` operators
is modelled as aborting on overflow (`RunResult.panic`), matching the
checked-arithmetic semantics of the language (the code uses `wrapping_add`
and `wrapping_sub` deliberately wherever wrap-around is intended).
A fallible Rust method `fn f(&mut self) -> Result<T, ()>` becomes a state
transformer into `RunResult σ T`: `err` carries the mutated state just as a
returned `Err(())` leaves the caller's `self` mutated, while `panic` carries
no state because the process aborts.
-/
import Mathlib

set_option maxRecDepth 10000

namespace RuGameboy

/-- Result of running a stateful fallible computation over state `σ`:
`panic` models a Rust panic (abort), `err` a returned `Err(())` together
with the state as mutated so far, `ok` a returned value plus final state. -/
inductive RunResult (σ : Type) (α : Type) where
  | panic : RunResult σ α
  | err : σ → RunResult σ α
  | ok : σ → α → RunResult σ α
deriving Repr

/-- The state monad with Rust-style failure used to embed `&mut self` methods. -/
def M (σ : Type) (α : Type) : Type := σ → RunResult σ α

instance : Monad (M σ) where
  pure a := fun s => .ok s a
  bind x f := fun s =>
    match x s with
    | .panic => .panic
    | .err s' => .err s'
    | .ok s' a => f a s'

/-- Read the current state. -/
def mGet : M σ σ := fun s => .ok s s

/-- Replace the current state. -/
def mSet (s : σ) : M σ Unit := fun _ => .ok s ()

/-- Apply a pure update to the state. -/
def mModify (f : σ → σ) : M σ Unit := fun s => .ok (f s) ()

/-- Return `Err(())`, keeping the state mutated so far. -/
def mErr : M σ α := fun s => .err s

/-- Abort the process (Rust panic). -/
def mPanic : M σ α := fun _ => .panic

/-- Unchecked Rust `u16` addition: aborts when the sum exceeds `0xffff`. -/
def u16addM (a b : Nat) : M σ Nat :=
  if a + b ≤ 0xffff then pure (a + b) else mPanic

/-- Unchecked Rust `u16` subtraction: aborts when the result would underflow. -/
def u16subM (a b : Nat) : M σ Nat :=
  if b ≤ a then pure (a - b) else mPanic

/-- `u8::wrapping_add`. -/
def wrap8 (a b : Nat) : Nat := (a + b) % 256

/-- `u8::wrapping_sub` for arguments below 256. -/
def wrap8sub (a b : Nat) : Nat := (a + 256 - b % 256) % 256

/-- `u16::wrapping_add`. -/
def wrap16 (a b : Nat) : Nat := (a + b) % 65536

/-- `u16::wrapping_sub` for arguments below 65536. -/
def wrap16sub (a b : Nat) : Nat := (a + 65536 - b % 65536) % 65536

/-- `u64::wrapping_add`. -/
def wrap64 (a b : Nat) : Nat := (a + b) % 18446744073709551616

/-! ## register.rs -/

/-- The flag register `F` as four booleans (register.rs `FlagRegister`). -/
structure FlagRegister where
  zero : Bool
  subtract : Bool
  half_carry : Bool
  carry : Bool
deriving Repr, DecidableEq

/-- `impl From<&FlagRegister> for u8`: pack the four flags into bits 7..4. -/
def flagToU8 (flag : FlagRegister) : Nat :=
  (if flag.zero then 1 <<< 7 else 0) |||
  (if flag.subtract then 1 <<< 6 else 0) |||
  (if flag.half_carry then 1 <<< 5 else 0) |||
  (if flag.carry then 1 <<< 4 else 0)

/-- `impl From<u8> for FlagRegister`: the low nibble of the byte is dropped. -/
def flagFromU8 (byte : Nat) : FlagRegister where
  zero := (byte >>> 7) &&& 1 ≠ 0
  subtract := (byte >>> 6) &&& 1 ≠ 0
  half_carry := (byte >>> 5) &&& 1 ≠ 0
  carry := (byte >>> 4) &&& 1 ≠ 0

/-- The CPU register file (register.rs `Register`); each 8-bit field is a
`Nat` kept below 256 by the operations that write it. -/
structure Register where
  a : Nat
  b : Nat
  c : Nat
  d : Nat
  e : Nat
  f : FlagRegister
  h : Nat
  l : Nat
deriving Repr, DecidableEq

def Register.get_af (r : Register) : Nat := (r.a <<< 8) ||| flagToU8 r.f

def Register.set_af (r : Register) (value : Nat) : Register :=
  { r with a := (value >>> 8) &&& 0xff, f := flagFromU8 (value &&& 0xff) }

def Register.get_bc (r : Register) : Nat := (r.b <<< 8) ||| r.c

def Register.set_bc (r : Register) (value : Nat) : Register :=
  { r with b := (value >>> 8) &&& 0xff, c := value &&& 0xff }

def Register.get_de (r : Register) : Nat := (r.d <<< 8) ||| r.e

def Register.set_de (r : Register) (value : Nat) : Register :=
  { r with d := (value >>> 8) &&& 0xff, e := value &&& 0xff }

def Register.get_hl (r : Register) : Nat := (r.h <<< 8) ||| r.l

def Register.set_hl (r : Register) (value : Nat) : Register :=
  { r with h := (value >>> 8) &&& 0xff, l := value &&& 0xff }

def Register.inc_hl (r : Register) : Register := r.set_hl (wrap16 r.get_hl 1)

def Register.dec_hl (r : Register) : Register := r.set_hl (wrap16sub r.get_hl 1)

/-- `Register::default()`: all bytes zero, all flags clear. -/
def registerDefault : Register := ⟨0, 0, 0, 0, 0, ⟨false, false, false, false⟩, 0, 0⟩

/-! ## timer.rs -/

/-- TAC scale selector (timer.rs `TimerScale`). -/
inductive TimerScale where
  | X1
  | X4
  | X16
  | X64
deriving Repr, DecidableEq

/-- timer.rs `TimerControl`. -/
structure TimerControl where
  scale : TimerScale
  running : Bool
deriving Repr, DecidableEq

/-- timer.rs `Timer`. The counters are Rust `u64`; their unchecked `+=` in
`Timer::update` cannot overflow on any trace the claims quantify over, so
they are embedded as plain `Nat`. -/
structure Timer where
  div : Nat
  tima : Nat
  tma : Nat
  tac : TimerControl
  div_counter : Nat
  timer_counter : Nat
  roundvalue : Nat
  is_interrupt : Bool
deriving Repr, DecidableEq

/-- `Timer::new()` = `Default::default()`. -/
def timerNew : Timer := ⟨0, 0, 0, ⟨.X1, false⟩, 0, 0, 0, false⟩

/-- `Timer::update(clock)` (timer.rs lines 59-82), transcribed as written:
the overflow branch tests and assigns `self.tma`, and never sets
`is_interrupt`. -/
def Timer.update (t : Timer) (clock : Nat) : Timer :=
  -- handle div
  let t := { t with div_counter := t.div_counter + clock }
  let t :=
    if t.div_counter ≥ 256 then
      { t with div_counter := t.div_counter - 256, div := wrap8 t.div 1 }
    else t
  -- handle tac
  if t.tac.running then
    let t := { t with timer_counter := t.timer_counter + clock }
    if t.timer_counter ≥ t.roundvalue then
      let t := { t with timer_counter := t.timer_counter - t.roundvalue }
      if t.tma == 0xff then
        { t with tma := t.tima }
      else
        { t with tma := wrap8 t.tma 1 }
    else t
  else t

/-- `<Timer as Device>::load`. -/
def Timer.deviceLoad (t : Timer) (addr : Nat) : Option Nat :=
  if addr = 0xFF04 then some t.div
  else if addr = 0xFF05 then some t.tima
  else if addr = 0xFF06 then some t.tma
  else if addr = 0xFF07 then
    some ((if t.tac.running then 1 <<< 2 else 0) |||
      (match t.tac.scale with
       | .X1 => 0b00
       | .X4 => 0b11
       | .X16 => 0b10
       | .X64 => 0b01))
  else none

/-- `<Timer as Device>::store` (timer.rs lines 104-130): a write to 0xFF04
only zeroes the visible `div` byte; `div_counter` is untouched. -/
def Timer.deviceStore (t : Timer) (addr : Nat) (value : Nat) : Option Timer :=
  if addr = 0xFF04 then some { t with div := 0 }
  else if addr = 0xFF05 then some { t with tima := value }
  else if addr = 0xFF06 then some { t with tma := value }
  else if addr = 0xFF07 then
    let running := value &&& 0x4 ≠ 0
    match value &&& 0x3 with
    | 0 => some { t with tac := ⟨.X1, running⟩, roundvalue := 1024, timer_counter := 0 }
    | 1 => some { t with tac := ⟨.X64, running⟩, roundvalue := 16, timer_counter := 0 }
    | 2 => some { t with tac := ⟨.X16, running⟩, roundvalue := 64, timer_counter := 0 }
    | 3 => some { t with tac := ⟨.X4, running⟩, roundvalue := 256, timer_counter := 0 }
    | _ => none
  else none

/-! ## gpu.rs -/

/-- gpu.rs `GpuMode`. -/
inductive GpuMode where
  | ScanlineOAM
  | ScanlineVRAM
  | HBlank
  | VBlank
deriving Repr, DecidableEq

/-- gpu.rs `LCDC` bitfield. -/
structure LCDC where
  operation : Bool
  windows_tile_map : Bool
  window_display : Bool
  bg_tile_data_select : Bool
  bg_tile_map_select : Bool
  obj_size : Bool
  obj_display : Bool
  bg_display : Bool
deriving Repr, DecidableEq

/-- `LCDC::from_u8`. -/
def LCDC.from_u8 (byte : Nat) : LCDC where
  operation := byte &&& 0b10000000 ≠ 0
  windows_tile_map := byte &&& 0b01000000 ≠ 0
  window_display := byte &&& 0b00100000 ≠ 0
  bg_tile_data_select := byte &&& 0b00010000 ≠ 0
  bg_tile_map_select := byte &&& 0b00001000 ≠ 0
  obj_size := byte &&& 0b00000100 ≠ 0
  obj_display := byte &&& 0b00000010 ≠ 0
  bg_display := byte &&& 0b00000001 ≠ 0

/-- `LCDC::to_u8`. -/
def LCDC.to_u8 (l : LCDC) : Nat :=
  ((if l.operation then 1 else 0) <<< 7) |||
  ((if l.windows_tile_map then 1 else 0) <<< 6) |||
  ((if l.window_display then 1 else 0) <<< 5) |||
  ((if l.bg_tile_data_select then 1 else 0) <<< 4) |||
  ((if l.bg_tile_map_select then 1 else 0) <<< 3) |||
  ((if l.obj_size then 1 else 0) <<< 2) |||
  ((if l.obj_display then 1 else 0) <<< 1) |||
  (if l.bg_display then 1 else 0)

/-- gpu.rs `Sprite`; `x`/`y` are Rust `isize`. -/
structure Sprite where
  tile_idx : Nat
  x : Int
  y : Int
  priority : Bool
  flip_y : Bool
  flip_x : Bool
  palette_number : Bool
deriving Repr, DecidableEq

def spriteDefault : Sprite := ⟨0, 0, 0, false, false, false, false⟩

/-- gpu.rs `Gpu`. `vram` and `oam` are offset-indexed byte maps (the Rust
vectors have fixed lengths 0x2000 and 0xA0); `sprite` is the 40-entry cache,
indexed by sprite number. The frame compositor's `unmapped_bg` shadow buffer
is carried as a pixel map as well. `clock` is a `u64`, updated in the source
with `wrapping_add`; `line` is a `u8` whose only arithmetic is the unchecked
`self.line += 1`, embedded as plain `Nat` succ — the reachability invariant
proved below keeps it at most 153, far from overflow. -/
structure Gpu where
  clock : Nat
  line : Nat
  lcdc : LCDC
  bg_palette : Nat
  ob0_palette : Nat
  ob1_palette : Nat
  mode : GpuMode
  scy : Nat
  scx : Nat
  vram : Nat → Nat
  oam : Nat → Nat
  sprite : Nat → Sprite
  unmapped_bg : Nat → Nat
  is_interrupt : Bool

/-- `Gpu::new()`. -/
def gpuNew : Gpu where
  clock := 0
  line := 0
  lcdc := LCDC.from_u8 0x91
  bg_palette := 0xfc
  ob0_palette := 0xff
  ob1_palette := 0xff
  mode := .ScanlineOAM
  scy := 0
  scx := 0
  vram := fun _ => 0
  oam := fun _ => 0
  sprite := fun _ => spriteDefault
  unmapped_bg := fun _ => 0
  is_interrupt := false

/-- `Gpu::update(clock)` (gpu.rs lines 302-335): one mode-switch check per
call; the HBlank branch with `line >= 143` enters VBlank and raises the
VBlank interrupt flag; the VBlank branch resets `line` to 0 as soon as the
increment reaches 153. -/
def Gpu.update (g : Gpu) (clock : Nat) : Gpu :=
  let g := { g with clock := wrap64 g.clock clock }
  match g.mode with
  | .ScanlineOAM =>
      if g.clock ≥ 80 then
        { g with clock := g.clock - 80, mode := .ScanlineVRAM }
      else g
  | .ScanlineVRAM =>
      if g.clock ≥ 172 then
        { g with clock := g.clock - 172, mode := .HBlank }
      else g
  | .HBlank =>
      if g.clock ≥ 204 then
        let g := { g with clock := g.clock - 204 }
        let g :=
          if g.line ≥ 143 then
            { g with mode := .VBlank, is_interrupt := true }
          else
            { g with mode := .ScanlineOAM }
        { g with line := g.line + 1 }
      else g
  | .VBlank =>
      if g.clock ≥ 456 then
        let g := { g with clock := g.clock - 456, line := g.line + 1 }
        if g.line ≥ 153 then
          { g with line := 0, mode := .ScanlineOAM }
        else g
      else g

/-- `Gpu::update_sprite(addr)`: refresh the decoded sprite record touched by
an OAM byte write at offset `addr`. -/
def Gpu.update_sprite (g : Gpu) (addr : Nat) : Gpu :=
  let sprite_idx := addr / 4
  let value := g.oam addr
  let upd (f : Sprite → Sprite) : Gpu :=
    { g with sprite := fun i => if i = sprite_idx then f (g.sprite sprite_idx) else g.sprite i }
  match addr &&& 0x03 with
  | 0 => upd fun s => { s with y := (value : Int) - 16 }
  | 1 => upd fun s => { s with x := (value : Int) - 8 }
  | 2 => upd fun s => { s with tile_idx := value }
  | 3 => upd fun s =>
      { s with
        priority := (value >>> 0x7) &&& 0x1 ≠ 0
        flip_y := (value >>> 0x6) &&& 0x1 ≠ 0
        flip_x := (value >>> 0x5) &&& 0x1 ≠ 0
        palette_number := (value >>> 0x4) &&& 0x1 ≠ 0 }
  | _ => g

/-- `<Gpu as Device>::load`: VRAM and OAM reads; `vec.get` bounds checks
become explicit length tests. -/
def Gpu.deviceLoad (g : Gpu) (addr : Nat) : Option Nat :=
  if 0x8000 ≤ addr ∧ addr ≤ 0x9fff then
    let addr := addr - 0x8000
    if addr < 0x2000 then some (g.vram addr) else none
  else if 0xfe00 ≤ addr ∧ addr ≤ 0xfe9f then
    let addr := addr - 0xfe00
    if addr < 0xa0 then some (g.oam addr) else none
  else none

/-- `<Gpu as Device>::store`: VRAM and OAM writes; an OAM write also
refreshes the sprite cache. -/
def Gpu.deviceStore (g : Gpu) (addr : Nat) (value : Nat) : Option Gpu :=
  if 0x8000 ≤ addr ∧ addr ≤ 0x9fff then
    let addr := addr - 0x8000
    if addr < 0x2000 then
      some { g with vram := fun i => if i = addr then value else g.vram i }
    else none
  else if 0xfe00 ≤ addr ∧ addr ≤ 0xfe9f then
    let addr := addr - 0xfe00
    if addr < 0xa0 then
      some (Gpu.update_sprite
        { g with oam := fun i => if i = addr then value else g.oam i } addr)
    else none
  else none

/-! ## joypad.rs -/

/-- joypad.rs `Joypad`. -/
structure Joypad where
  p14 : Nat
  p15 : Nat
  mask : Nat
deriving Repr, DecidableEq

/-- `Joypad::new()`. -/
def joypadNew : Joypad := ⟨0x0F, 0x0F, 0x30⟩

/-- `<Joypad as Device>::load`. -/
def Joypad.deviceLoad (j : Joypad) : Option Nat :=
  if j.mask = 0x20 then some j.p14
  else if j.mask = 0x10 then some j.p15
  else some 0x0F

/-- `<Joypad as Device>::store`. -/
def Joypad.deviceStore (j : Joypad) (value : Nat) : Joypad := { j with mask := value }

/-! ## bus.rs -/

/-- bus.rs `InterruptFlag` (used for the IE latch at 0xFFFF). -/
structure InterruptFlag where
  vblank : Bool
  lcdc : Bool
  timer : Bool
  serial : Bool
  joypad : Bool
deriving Repr, DecidableEq

/-- `impl From<&InterruptFlag> for u8`. -/
def interruptFlagToU8 (flag : InterruptFlag) : Nat :=
  (if flag.vblank then 1 <<< 0 else 0) |||
  (if flag.lcdc then 1 <<< 1 else 0) |||
  (if flag.timer then 1 <<< 2 else 0) |||
  (if flag.serial then 1 <<< 3 else 0) |||
  (if flag.joypad then 1 <<< 4 else 0)

/-- `impl From<u8> for InterruptFlag`. -/
def interruptFlagFromU8 (byte : Nat) : InterruptFlag where
  vblank := (byte >>> 0) &&& 1 ≠ 0
  lcdc := (byte >>> 1) &&& 1 ≠ 0
  timer := (byte >>> 2) &&& 1 ≠ 0
  serial := (byte >>> 3) &&& 1 ≠ 0
  joypad := (byte >>> 4) &&& 1 ≠ 0

/-- The `IO` register-line enum of bus.rs (0xff00-0xff7f). -/
inductive IOReg where
  | SB | SC
  | NR10 | NR11 | NR12 | NR13 | NR14 | NR21 | NR22 | NR23 | NR24
  | NR30 | NR31 | NR32 | NR33 | NR34 | NR41 | NR42 | NR43 | NR44
  | NR50 | NR51 | NR52
  | WAV0 | WAV1 | WAV2 | WAV3 | WAV4 | WAV5 | WAV6 | WAV7
  | WAV8 | WAV9 | WAVa | WAVb | WAVc | WAVd | WAVe | WAVf
  | LCDC | STAT | SCY | SCX | LY | DMA | BGP | OBP0 | OBP1 | WINY | WINX
  | Dummy7f
deriving Repr, DecidableEq

/-- `FromPrimitive::from_u16` for the `IO` enum: the discriminant values
declared in bus.rs. -/
def ioFromU16 (addr : Nat) : Option IOReg :=
  if addr = 0xff01 then some .SB else if addr = 0xff02 then some .SC
  else if addr = 0xff10 then some .NR10 else if addr = 0xff11 then some .NR11
  else if addr = 0xff12 then some .NR12 else if addr = 0xff13 then some .NR13
  else if addr = 0xff14 then some .NR14 else if addr = 0xff16 then some .NR21
  else if addr = 0xff17 then some .NR22 else if addr = 0xff18 then some .NR23
  else if addr = 0xff19 then some .NR24 else if addr = 0xff1a then some .NR30
  else if addr = 0xff1b then some .NR31 else if addr = 0xff1c then some .NR32
  else if addr = 0xff1d then some .NR33 else if addr = 0xff1e then some .NR34
  else if addr = 0xff20 then some .NR41 else if addr = 0xff21 then some .NR42
  else if addr = 0xff22 then some .NR43 else if addr = 0xff23 then some .NR44
  else if addr = 0xff24 then some .NR50 else if addr = 0xff25 then some .NR51
  else if addr = 0xff26 then some .NR52
  else if addr = 0xff30 then some .WAV0 else if addr = 0xff31 then some .WAV1
  else if addr = 0xff32 then some .WAV2 else if addr = 0xff33 then some .WAV3
  else if addr = 0xff34 then some .WAV4 else if addr = 0xff35 then some .WAV5
  else if addr = 0xff36 then some .WAV6 else if addr = 0xff37 then some .WAV7
  else if addr = 0xff38 then some .WAV8 else if addr = 0xff39 then some .WAV9
  else if addr = 0xff3a then some .WAVa else if addr = 0xff3b then some .WAVb
  else if addr = 0xff3c then some .WAVc else if addr = 0xff3d then some .WAVd
  else if addr = 0xff3e then some .WAVe else if addr = 0xff3f then some .WAVf
  else if addr = 0xff40 then some .LCDC else if addr = 0xff41 then some .STAT
  else if addr = 0xff42 then some .SCY else if addr = 0xff43 then some .SCX
  else if addr = 0xff44 then some .LY else if addr = 0xff46 then some .DMA
  else if addr = 0xff47 then some .BGP else if addr = 0xff48 then some .OBP0
  else if addr = 0xff49 then some .OBP1 else if addr = 0xff4a then some .WINY
  else if addr = 0xff4b then some .WINX else if addr = 0xff7f then some .Dummy7f
  else none

/-! ## memory.rs -/

/-- memory.rs `Permission`. -/
inductive Permission where
  | Normal
  | ReadOnly
  | Invalid
deriving Repr, DecidableEq

/-- memory.rs `Memory`: a backing store with base offset; `data` is the
byte vector as an offset-indexed map of fixed length `size`. -/
structure Memory where
  base : Nat
  size : Nat
  data : Nat → Nat
  permission : Permission

/-- `<Memory as Device>::range`. -/
def Memory.range (m : Memory) : Nat × Nat := (m.base, m.base + m.size - 1)

/-- `<Memory as Device>::load`. -/
def Memory.load (m : Memory) (addr : Nat) : Option Nat :=
  match m.permission with
  | .Normal | .ReadOnly =>
      let addr := addr - m.base
      if addr < m.size then some (m.data addr) else none
  | .Invalid => some 0

/-- `<Memory as Device>::store`. -/
def Memory.store (m : Memory) (addr : Nat) (value : Nat) : Option Memory :=
  match m.permission with
  | .Normal =>
      let addr := addr - m.base
      if addr < m.size then
        some { m with data := fun i => if i = addr then value else m.data i }
      else none
  | .ReadOnly => some m
  | .Invalid => some m

/-- bus.rs `Bus`: the ordered `storage` vector holds exactly the four
regions pushed by `Bus::new` (cartridge, work RAM, high RAM, unusable
hole), so they are embedded as named fields consulted in push order. -/
structure Bus where
  catridge : Memory
  ram : Memory
  hram : Memory
  unusable : Memory
  gpu : Gpu
  timer : Timer
  joypad : Joypad
  interruptenb : InterruptFlag

/-- `Bus::new(binary)`: `Memory::new` copies the cartridge image and pads
it with zeroes up to the region size. -/
def busNew (binary : List Nat) : Bus where
  catridge := ⟨0x0000, 0x8000, fun i => (binary.drop i).headD 0, .ReadOnly⟩
  ram := ⟨0xc000, 0x2000, fun _ => 0, .Normal⟩
  hram := ⟨0xff80, 0x7f, fun _ => 0, .Normal⟩
  unusable := ⟨0xfea0, 0x60, fun _ => 0, .Invalid⟩
  gpu := gpuNew
  timer := timerNew
  joypad := joypadNew
  interruptenb := ⟨false, false, false, false, false⟩

/-- `Bus::load_interrupt` (the IF view at 0xFF0F). -/
def Bus.load_interrupt (b : Bus) : Nat :=
  (if b.gpu.is_interrupt then 1 <<< 0 else 0) |||
  (if b.timer.is_interrupt then 1 <<< 2 else 0)

/-- `Bus::store_interrupt` (a write to 0xFF0F), transcribed as written —
including the `(value >> 2) & 0x4` test for the timer bit. -/
def Bus.store_interrupt (b : Bus) (value : Nat) : Bus :=
  { b with
    gpu := { b.gpu with is_interrupt := (value >>> 0) &&& 0x1 ≠ 0 }
    timer := { b.timer with is_interrupt := (value >>> 2) &&& 0x4 ≠ 0 } }

/-- Membership of `addr` in a storage region, as tested by
`Bus::find_storage` via `Device::range`. -/
def Memory.contains (m : Memory) (addr : Nat) : Prop :=
  m.range.1 ≤ addr ∧ addr ≤ m.range.2

instance (m : Memory) (addr : Nat) : Decidable (m.contains addr) := by
  unfold Memory.contains
  exact inferInstance

/-- `Bus::load` (storage regions first, then memory-mapped devices, then
the interrupt latches, then the decoded I/O lines). -/
def Bus.load (b : Bus) (addr : Nat) : Option Nat :=
  if b.catridge.contains addr then b.catridge.load addr
  else if b.ram.contains addr then b.ram.load addr
  else if b.hram.contains addr then b.hram.load addr
  else if b.unusable.contains addr then b.unusable.load addr
  else if (0x8000 ≤ addr ∧ addr ≤ 0x9fff) ∨ (0xfe00 ≤ addr ∧ addr ≤ 0xfe9f) then
    b.gpu.deviceLoad addr
  else if 0xff04 ≤ addr ∧ addr ≤ 0xff07 then b.timer.deviceLoad addr
  else if addr = 0xff00 then b.joypad.deviceLoad
  else if addr = 0xff0f then some b.load_interrupt
  else if addr = 0xffff then some (interruptFlagToU8 b.interruptenb)
  else
    match ioFromU16 addr with
    | some .LCDC => some b.gpu.lcdc.to_u8
    | some .SCY => some b.gpu.scy
    | some .SCX => some b.gpu.scx
    | some .LY => some b.gpu.line
    | some .BGP => some b.gpu.bg_palette
    | some .OBP0 => some b.gpu.ob0_palette
    | some .OBP1 => some b.gpu.ob1_palette
    | some _ => some 0
    | none => none

/-- The `for i in 0..(40 * 4)` copy loop of `Bus::dma`: load from
`addr + i`, store to `0xFE00 + i` through the bus's own store (passed as
`store1`), both results unwrapped (a failure panics). `n` counts the
remaining iterations. -/
def Bus.dmaLoop (store1 : Bus → Nat → Nat → RunResult Bus Unit) :
    Nat → Bus → Nat → Nat → RunResult Bus Unit
  | 0, b, _, _ => .ok b ()
  | n+1, b, addr, i =>
    match b.load (addr + i) with
    | none => .panic
    | some byte =>
      match store1 b (0xfe00 + i) byte with
      | .panic => .panic
      | .err _ => .panic
      | .ok b' _ => Bus.dmaLoop store1 n b' addr (i + 1)

/-- `Bus::store` and `Bus::dma` are mutually recursive in the source (the
DMA copy loop stores through `self.store`); the extra `fuel` argument makes
the recursion structural. Every address the copy loop stores to
(0xFE00-0xFE9F) is routed to the OAM device before the I/O-line match, so
the fuel-exhaustion arm is unreachable and fuel 2 computes `Bus::store`
exactly. `.err` carries the bus unchanged because no failing arm mutates
before returning `Err(())`. -/
def Bus.storeF : Nat → Bus → Nat → Nat → RunResult Bus Unit
  | 0 => fun _ _ _ => .panic
  | fuel+1 => fun b addr value =>
    if b.catridge.contains addr then
      match b.catridge.store addr value with
      | none => .err b
      | some m => .ok { b with catridge := m } ()
    else if b.ram.contains addr then
      match b.ram.store addr value with
      | none => .err b
      | some m => .ok { b with ram := m } ()
    else if b.hram.contains addr then
      match b.hram.store addr value with
      | none => .err b
      | some m => .ok { b with hram := m } ()
    else if b.unusable.contains addr then
      match b.unusable.store addr value with
      | none => .err b
      | some m => .ok { b with unusable := m } ()
    else if (0x8000 ≤ addr ∧ addr ≤ 0x9fff) ∨ (0xfe00 ≤ addr ∧ addr ≤ 0xfe9f) then
      match b.gpu.deviceStore addr value with
      | none => .err b
      | some g => .ok { b with gpu := g } ()
    else if 0xff04 ≤ addr ∧ addr ≤ 0xff07 then
      match b.timer.deviceStore addr value with
      | none => .err b
      | some t => .ok { b with timer := t } ()
    else if addr = 0xff00 then .ok { b with joypad := b.joypad.deviceStore value } ()
    else if addr = 0xff0f then .ok (b.store_interrupt value) ()
    else if addr = 0xffff then .ok { b with interruptenb := interruptFlagFromU8 value } ()
    else
      match ioFromU16 addr with
      | some .LCDC => .ok { b with gpu := { b.gpu with lcdc := LCDC.from_u8 value } } ()
      | some .SCY => .ok { b with gpu := { b.gpu with scy := value } } ()
      | some .SCX => .ok { b with gpu := { b.gpu with scx := value } } ()
      | some .LY => .ok { b with gpu := { b.gpu with line := 0 } } ()
      | some .DMA => Bus.dmaLoop (Bus.storeF fuel) 160 b (value <<< 8) 0
      | some .BGP => .ok { b with gpu := { b.gpu with bg_palette := value } } ()
      | some .OBP0 => .ok { b with gpu := { b.gpu with ob0_palette := value } } ()
      | some .OBP1 => .ok { b with gpu := { b.gpu with ob1_palette := value } } ()
      | some _ => .ok b ()
      | none => .err b

/-- `Bus::store8` / `Bus::store` at the published fuel. -/
def Bus.store (b : Bus) (addr value : Nat) : RunResult Bus Unit :=
  Bus.storeF 2 b addr value

/-- `Bus::load16`: big-endian assembly of two little-endian loads; the
`addr + 1` is an unchecked `u16` addition. -/
def Bus.load16 (b : Bus) (addr : Nat) : RunResult Bus Nat :=
  if addr + 1 ≤ 0xffff then
    match b.load (addr + 1) with
    | none => .err b
    | some msb =>
      match b.load addr with
      | none => .err b
      | some lsb => .ok b ((msb <<< 8) ||| lsb)
  else .panic

/-- `Bus::store16`: low byte first, then high byte at `addr + 1` (an
unchecked `u16` addition computed after the first store). -/
def Bus.store16 (b : Bus) (addr value : Nat) : RunResult Bus Unit :=
  match b.store addr (value &&& 0xff) with
  | .panic => .panic
  | .err b' => .err b'
  | .ok b' _ =>
    if addr + 1 ≤ 0xffff then b'.store (addr + 1) ((value >>> 8) &&& 0xff)
    else .panic

/-! ## instruction.rs -/

/-- Operand targets (instruction.rs `Target`; `Source` is an alias). -/
inductive Target where
  | A | B | C | D | E | H | L
  | AF | BC | DE | HL | HLINC | HLDEC | SP | D8
deriving Repr, DecidableEq

/-- Branch conditions (instruction.rs `Condition`). -/
inductive Condition where
  | NotZero | Zero | NotCarry | Carry | Always
deriving Repr, DecidableEq

/-- Decoded primary instructions. The first thirty constructors are the
`Instruction` enum of the checked-in instruction.rs; the constructors from
`JPHL` on are matched by `Cpu::execute` in cpu.rs (the checked-in
instruction.rs predates them). -/
inductive Instruction where
  | NOP
  | JP (c : Condition)
  | DI
  | LDIMM16 (t : Target)
  | LDIMM8 (t : Target)
  | LD16A | LDA16 | LD8A | LDA8 | LDCA | LDAC
  | LDRR (s t : Target)
  | CALL (c : Condition)
  | RET (c : Condition)
  | PUSH (t : Target)
  | POP (t : Target)
  | JR (c : Condition)
  | INC16 (t : Target)
  | DEC16 (t : Target)
  | INC8 (t : Target)
  | DEC8 (t : Target)
  | ADD (t : Target)
  | ADC (t : Target)
  | SUB (t : Target)
  | SBC (t : Target)
  | AND (t : Target)
  | XOR (t : Target)
  | OR (t : Target)
  | CMP (t : Target)
  | RST (addr : Nat)
  | JPHL | EI | LDA16SP | LDSPHL | RETI | CPL | CCF
  | ADDHL (t : Target)
  | RRA | DAA | RLCA
deriving Repr, DecidableEq

/-- `Instruction::from_byte`: the primary opcode table exactly as checked
in (no entries for 0x07/0x0f/0x17/0x1f, 0x08, 0x09/0x19/0x29/0x39, 0x27,
0x2f, 0x3f, 0xd9, 0xe9, 0xf9, 0xfb, among others). -/
def Instruction.from_byte (byte : Nat) : Option Instruction :=
  match byte with
  | 0x00 => some .NOP
  | 0xc2 => some (.JP .NotZero)
  | 0xc3 => some (.JP .Always)
  | 0xca => some (.JP .Zero)
  | 0xd2 => some (.JP .NotCarry)
  | 0xda => some (.JP .Carry)
  | 0xf3 => some .DI
  | 0x01 => some (.LDIMM16 .BC)
  | 0x11 => some (.LDIMM16 .DE)
  | 0x21 => some (.LDIMM16 .HL)
  | 0x31 => some (.LDIMM16 .SP)
  | 0xea => some .LD16A
  | 0xfa => some .LDA16
  | 0x06 => some (.LDIMM8 .B)
  | 0x16 => some (.LDIMM8 .D)
  | 0x26 => some (.LDIMM8 .H)
  | 0x36 => some (.LDIMM8 .HL)
  | 0x0e => some (.LDIMM8 .C)
  | 0x1e => some (.LDIMM8 .E)
  | 0x2e => some (.LDIMM8 .L)
  | 0x3e => some (.LDIMM8 .A)
  | 0xe0 => some .LD8A
  | 0xf0 => some .LDA8
  | 0xc4 => some (.CALL .NotZero)
  | 0xcc => some (.CALL .Zero)
  | 0xcd => some (.CALL .Always)
  | 0xd4 => some (.CALL .NotCarry)
  | 0xdc => some (.CALL .Carry)
  | 0xc0 => some (.RET .NotZero)
  | 0xc8 => some (.RET .Zero)
  | 0xc9 => some (.RET .Always)
  | 0xd0 => some (.RET .NotCarry)
  | 0xd8 => some (.RET .Carry)
  | 0xc5 => some (.PUSH .BC)
  | 0xd5 => some (.PUSH .DE)
  | 0xe5 => some (.PUSH .HL)
  | 0xf5 => some (.PUSH .AF)
  | 0xc1 => some (.POP .BC)
  | 0xd1 => some (.POP .DE)
  | 0xe1 => some (.POP .HL)
  | 0xf1 => some (.POP .AF)
  | 0x02 => some (.LDRR .A .BC)
  | 0x12 => some (.LDRR .A .DE)
  | 0x22 => some (.LDRR .A .HLINC)
  | 0x32 => some (.LDRR .A .HLDEC)
  | 0x0a => some (.LDRR .BC .A)
  | 0x1a => some (.LDRR .DE .A)
  | 0x2a => some (.LDRR .HLINC .A)
  | 0x3a => some (.LDRR .HLDEC .A)
  | 0x78 => some (.LDRR .B .A)
  | 0x7d => some (.LDRR .L .A)
  | 0x7c => some (.LDRR .H .A)
  | 0x40 => some (.LDRR .B .B)
  | 0x41 => some (.LDRR .C .B)
  | 0x42 => some (.LDRR .D .B)
  | 0x43 => some (.LDRR .E .B)
  | 0x44 => some (.LDRR .H .B)
  | 0x45 => some (.LDRR .L .B)
  | 0x46 => some (.LDRR .HL .B)
  | 0x47 => some (.LDRR .A .B)
  | 0x48 => some (.LDRR .B .C)
  | 0x49 => some (.LDRR .C .C)
  | 0x4a => some (.LDRR .D .C)
  | 0x4b => some (.LDRR .E .C)
  | 0x4c => some (.LDRR .H .C)
  | 0x4d => some (.LDRR .L .C)
  | 0x4e => some (.LDRR .HL .C)
  | 0x4f => some (.LDRR .A .C)
  | 0x50 => some (.LDRR .B .D)
  | 0x51 => some (.LDRR .C .D)
  | 0x52 => some (.LDRR .D .D)
  | 0x53 => some (.LDRR .E .D)
  | 0x54 => some (.LDRR .H .D)
  | 0x55 => some (.LDRR .L .D)
  | 0x56 => some (.LDRR .HL .D)
  | 0x57 => some (.LDRR .A .D)
  | 0x58 => some (.LDRR .B .E)
  | 0x59 => some (.LDRR .C .E)
  | 0x5a => some (.LDRR .D .E)
  | 0x5b => some (.LDRR .E .E)
  | 0x5c => some (.LDRR .H .E)
  | 0x5d => some (.LDRR .L .E)
  | 0x5e => some (.LDRR .HL .E)
  | 0x5f => some (.LDRR .A .E)
  | 0x60 => some (.LDRR .B .H)
  | 0x61 => some (.LDRR .C .H)
  | 0x62 => some (.LDRR .D .H)
  | 0x63 => some (.LDRR .E .H)
  | 0x64 => some (.LDRR .H .H)
  | 0x65 => some (.LDRR .L .H)
  | 0x66 => some (.LDRR .HL .H)
  | 0x67 => some (.LDRR .A .H)
  | 0x68 => some (.LDRR .B .L)
  | 0x69 => some (.LDRR .C .L)
  | 0x6a => some (.LDRR .D .L)
  | 0x6b => some (.LDRR .E .L)
  | 0x6c => some (.LDRR .H .L)
  | 0x6d => some (.LDRR .L .L)
  | 0x6e => some (.LDRR .HL .L)
  | 0x6f => some (.LDRR .A .L)
  | 0x18 => some (.JR .Always)
  | 0x20 => some (.JR .NotZero)
  | 0x28 => some (.JR .Zero)
  | 0x30 => some (.JR .NotCarry)
  | 0x38 => some (.JR .Carry)
  | 0x03 => some (.INC16 .BC)
  | 0x13 => some (.INC16 .DE)
  | 0x23 => some (.INC16 .HL)
  | 0x33 => some (.INC16 .SP)
  | 0x0b => some (.DEC16 .BC)
  | 0x1b => some (.DEC16 .DE)
  | 0x2b => some (.DEC16 .HL)
  | 0x3b => some (.DEC16 .SP)
  | 0x04 => some (.INC8 .B)
  | 0x14 => some (.INC8 .D)
  | 0x24 => some (.INC8 .H)
  | 0x34 => some (.INC8 .HL)
  | 0x0c => some (.INC8 .C)
  | 0x1c => some (.INC8 .E)
  | 0x2c => some (.INC8 .L)
  | 0x3c => some (.INC8 .A)
  | 0x05 => some (.DEC8 .B)
  | 0x15 => some (.DEC8 .D)
  | 0x25 => some (.DEC8 .H)
  | 0x35 => some (.DEC8 .HL)
  | 0x0d => some (.DEC8 .C)
  | 0x1d => some (.DEC8 .E)
  | 0x2d => some (.DEC8 .L)
  | 0x3d => some (.DEC8 .A)
  | 0x80 => some (.ADD .B)
  | 0x81 => some (.ADD .C)
  | 0x82 => some (.ADD .D)
  | 0x83 => some (.ADD .E)
  | 0x84 => some (.ADD .H)
  | 0x85 => some (.ADD .L)
  | 0x86 => some (.ADD .HL)
  | 0x87 => some (.ADD .A)
  | 0xc6 => some (.ADD .D8)
  | 0x88 => some (.ADC .B)
  | 0x89 => some (.ADC .C)
  | 0x8a => some (.ADC .D)
  | 0x8b => some (.ADC .E)
  | 0x8c => some (.ADC .H)
  | 0x8d => some (.ADC .L)
  | 0x8e => some (.ADC .HL)
  | 0x8f => some (.ADC .A)
  | 0xce => some (.ADC .D8)
  | 0x90 => some (.SUB .B)
  | 0x91 => some (.SUB .C)
  | 0x92 => some (.SUB .D)
  | 0x93 => some (.SUB .E)
  | 0x94 => some (.SUB .H)
  | 0x95 => some (.SUB .L)
  | 0x96 => some (.SUB .HL)
  | 0x97 => some (.SUB .A)
  | 0xd6 => some (.SUB .D8)
  | 0x98 => some (.SBC .B)
  | 0x99 => some (.SBC .C)
  | 0x9a => some (.SBC .D)
  | 0x9b => some (.SBC .E)
  | 0x9c => some (.SBC .H)
  | 0x9d => some (.SBC .L)
  | 0x9e => some (.SBC .HL)
  | 0x9f => some (.SBC .A)
  | 0xde => some (.SBC .D8)
  | 0xa0 => some (.AND .B)
  | 0xa1 => some (.AND .C)
  | 0xa2 => some (.AND .D)
  | 0xa3 => some (.AND .E)
  | 0xa4 => some (.AND .H)
  | 0xa5 => some (.AND .L)
  | 0xa6 => some (.AND .HL)
  | 0xa7 => some (.AND .A)
  | 0xe6 => some (.AND .D8)
  | 0xa8 => some (.XOR .B)
  | 0xa9 => some (.XOR .C)
  | 0xaa => some (.XOR .D)
  | 0xab => some (.XOR .E)
  | 0xac => some (.XOR .H)
  | 0xad => some (.XOR .L)
  | 0xae => some (.XOR .HL)
  | 0xaf => some (.XOR .A)
  | 0xee => some (.XOR .D8)
  | 0xb0 => some (.OR .B)
  | 0xb1 => some (.OR .C)
  | 0xb2 => some (.OR .D)
  | 0xb3 => some (.OR .E)
  | 0xb4 => some (.OR .H)
  | 0xb5 => some (.OR .L)
  | 0xb6 => some (.OR .HL)
  | 0xb7 => some (.OR .A)
  | 0xf6 => some (.OR .D8)
  | 0xb8 => some (.CMP .B)
  | 0xb9 => some (.CMP .C)
  | 0xba => some (.CMP .D)
  | 0xbb => some (.CMP .E)
  | 0xbc => some (.CMP .H)
  | 0xbd => some (.CMP .L)
  | 0xbe => some (.CMP .HL)
  | 0xbf => some (.CMP .A)
  | 0xfe => some (.CMP .D8)
  | 0xc7 => some (.RST 0x00)
  | 0xcf => some (.RST 0x08)
  | 0xd7 => some (.RST 0x10)
  | 0xdf => some (.RST 0x18)
  | 0xe7 => some (.RST 0x20)
  | 0xef => some (.RST 0x28)
  | 0xf7 => some (.RST 0x30)
  | 0xff => some (.RST 0x38)
  | 0xe2 => some .LDCA
  | 0xf2 => some .LDAC
  | _ => none

/-- `Instruction::len`, the byte length (returns 0 for `RST`). Entries for
the constructors missing from the checked-in instruction.rs are modelled
from the spec: `instruction.length` per the published LR35902 tables
(JPHL 1, EI 1, LDA16SP 3, LDSPHL 1, RETI 1, CPL 1, CCF 1, ADDHL 1, RRA 1,
DAA 1, RLCA 1). -/
def Instruction.len : Instruction → Nat
  | .NOP => 1
  | .JP _ => 3
  | .DI => 1
  | .LDIMM16 _ => 3
  | .LDIMM8 _ => 2
  | .LD16A => 3
  | .LDA16 => 3
  | .LD8A => 2
  | .LDA8 => 2
  | .LDCA => 2
  | .LDAC => 2
  | .LDRR _ _ => 1
  | .CALL _ => 3
  | .RET _ => 1
  | .PUSH _ => 1
  | .POP _ => 1
  | .JR _ => 2
  | .INC16 _ => 1
  | .DEC16 _ => 1
  | .INC8 _ => 1
  | .DEC8 _ => 1
  | .ADD t => if t = .D8 then 2 else 1
  | .ADC t => if t = .D8 then 2 else 1
  | .SUB t => if t = .D8 then 2 else 1
  | .SBC t => if t = .D8 then 2 else 1
  | .AND t => if t = .D8 then 2 else 1
  | .XOR t => if t = .D8 then 2 else 1
  | .OR t => if t = .D8 then 2 else 1
  | .CMP t => if t = .D8 then 2 else 1
  | .RST _ => 0
  | .JPHL => 1
  | .EI => 1
  | .LDA16SP => 3
  | .LDSPHL => 1
  | .RETI => 1
  | .CPL => 1
  | .CCF => 1
  | .ADDHL _ => 1
  | .RRA => 1
  | .DAA => 1
  | .RLCA => 1

/-- `Instruction::clock`, the not-taken cycle count. Entries for the
constructors missing from the checked-in instruction.rs are modelled from
the spec: `instruction.base_cycles` per the published LR35902 tables
(JPHL 4, EI 4, LDA16SP 20, LDSPHL 8, RETI 16, CPL 4, CCF 4, ADDHL 8,
RRA 4, DAA 4, RLCA 4). -/
def Instruction.clock : Instruction → Nat
  | .NOP => 4
  | .JP _ => 12
  | .DI => 4
  | .LDIMM16 _ => 12
  | .LDIMM8 t => if t = .HL then 12 else 8
  | .LD16A => 16
  | .LDA16 => 16
  | .LD8A => 12
  | .LDA8 => 12
  | .LDCA => 8
  | .LDAC => 8
  | .LDRR s t => if s = .HL ∨ t = .HL then 8 else 4
  | .CALL _ => 12
  | .RET _ => 8
  | .PUSH _ => 16
  | .POP _ => 12
  | .JR _ => 8
  | .INC16 _ => 8
  | .DEC16 _ => 8
  | .INC8 t => if t = .HL then 12 else 4
  | .DEC8 t => if t = .HL then 12 else 4
  | .ADD t => if t = .D8 ∨ t = .HL then 2 else 1
  | .ADC t => if t = .D8 ∨ t = .HL then 2 else 1
  | .SUB t => if t = .D8 ∨ t = .HL then 2 else 1
  | .SBC t => if t = .D8 ∨ t = .HL then 2 else 1
  | .AND t => if t = .D8 ∨ t = .HL then 2 else 1
  | .XOR t => if t = .D8 ∨ t = .HL then 2 else 1
  | .OR t => if t = .D8 ∨ t = .HL then 2 else 1
  | .CMP t => if t = .D8 ∨ t = .HL then 2 else 1
  | .RST _ => 16
  | .JPHL => 4
  | .EI => 4
  | .LDA16SP => 20
  | .LDSPHL => 8
  | .RETI => 16
  | .CPL => 4
  | .CCF => 4
  | .ADDHL _ => 8
  | .RRA => 4
  | .DAA => 4
  | .RLCA => 4

/-- CB-prefixed instructions, with the constructors matched by
`Cpu::execute_cb` in cpu.rs (the enum's definition is not among the
checked-in sources). -/
inductive CBInstruction where
  | RLC (t : Target)
  | RRC (t : Target)
  | RL (t : Target)
  | RR (t : Target)
  | SLA (t : Target)
  | SRA (t : Target)
  | SWAP (t : Target)
  | SRL (t : Target)
  | BIT (t : Target) (offset : Nat)
  | RES (t : Target) (offset : Nat)
  | SET (t : Target) (offset : Nat)
deriving Repr, DecidableEq

/-- Modelled from the spec: `CBInstruction::from_byte` is not among the
checked-in sources (cpu.rs only calls it). Per spec section 4.2.3 and its
decoder contract, the CB table is total (256 entries) over the target
order B,C,D,E,H,L,(HL),A in the standard LR35902 layout: rows of eight
targets for RLC, RRC, RL, RR, SLA, SRA, SWAP, SRL, then BIT/RES/SET with
the bit offset in bits 5..3. Every byte decodes; only `byte % 256`
matters. -/
def CBInstruction.from_byte (byte : Nat) : CBInstruction :=
  let byte := byte % 256
  let target : Target :=
    match byte % 8 with
    | 0 => .B
    | 1 => .C
    | 2 => .D
    | 3 => .E
    | 4 => .H
    | 5 => .L
    | 6 => .HL
    | _ => .A
  let offset := (byte / 8) % 8
  if byte < 0x08 then .RLC target
  else if byte < 0x10 then .RRC target
  else if byte < 0x18 then .RL target
  else if byte < 0x20 then .RR target
  else if byte < 0x28 then .SLA target
  else if byte < 0x30 then .SRA target
  else if byte < 0x38 then .SWAP target
  else if byte < 0x40 then .SRL target
  else if byte < 0x80 then .BIT target offset
  else if byte < 0xc0 then .RES target offset
  else .SET target offset

/-- Modelled from the spec: `CBInstruction::clock` is not among the
checked-in sources. Spec 4.1: CB-prefixed ops cost 8 cycles, 16 when the
target is `(HL)`. -/
def CBInstruction.clock (i : CBInstruction) : Nat :=
  match i with
  | .RLC t | .RRC t | .RL t | .RR t | .SLA t | .SRA t | .SWAP t | .SRL t
  | .BIT t _ | .RES t _ | .SET t _ => if t = .HL then 16 else 8


/-! ## cpu.rs -/

/-- cpu.rs `DataSize`. -/
inductive DataSize where
  | Byte
  | Word
deriving Repr, DecidableEq

/-- cpu.rs `InterruptState` (the IME four-state variant). -/
inductive InterruptState where
  | IDisable
  | IEnable
  | IDisableNext
  | IEnableNext
deriving Repr, DecidableEq

/-- cpu.rs `Cpu`. -/
structure Cpu where
  regs : Register
  sp : Nat
  pc : Nat
  bus : Bus
  interrupt_state : InterruptState

/-- `Cpu::new(binary)`: execution starts at 0x0100 with SP = 0 and
interrupts disabled. -/
def cpuNew (binary : List Nat) : Cpu :=
  ⟨registerDefault, 0, 0x0100, busNew binary, .IDisable⟩

/-- The monad embedding `&mut self` methods of `Cpu`. -/
abbrev CpuM (α : Type) := M Cpu α

/-- `Cpu::load(&self, addr, size)`: a byte load through `Bus::load8`, a word
load through `Bus::load16`; no state is mutated. -/
def cpuLoadM (addr : Nat) (size : DataSize) : CpuM Nat := fun c =>
  match size with
  | .Byte =>
      match c.bus.load addr with
      | none => .err c
      | some v => .ok c v
  | .Word =>
      match c.bus.load16 addr with
      | .panic => .panic
      | .err _ => .err c
      | .ok _ v => .ok c v

/-- `Cpu::store(&mut self, addr, size, value)`: a byte store truncates the
value to `u8` (`value as u8`). -/
def cpuStoreM (addr : Nat) (size : DataSize) (value : Nat) : CpuM Unit := fun c =>
  match size with
  | .Byte =>
      match c.bus.store addr (value % 256) with
      | .panic => .panic
      | .err b => .err { c with bus := b }
      | .ok b _ => .ok { c with bus := b } ()
  | .Word =>
      match c.bus.store16 addr value with
      | .panic => .panic
      | .err b => .err { c with bus := b }
      | .ok b _ => .ok { c with bus := b } ()

/-- `Cpu::fetch`: load a word at PC, then `self.pc += 1` (an unchecked
`u16` increment, performed even when the load failed), then return the
load's result. -/
def cpuFetch : CpuM Nat := fun c =>
  match cpuLoadM c.pc .Word c with
  | .panic => .panic
  | .err _ => if c.pc + 1 ≤ 0xffff then .err { c with pc := c.pc + 1 } else .panic
  | .ok _ v => if c.pc + 1 ≤ 0xffff then .ok { c with pc := c.pc + 1 } v else .panic

/-- `Cpu::get_r8`. -/
def get_r8 (target : Target) : CpuM Nat := fun c =>
  match target with
  | .B => .ok c c.regs.b
  | .C => .ok c c.regs.c
  | .D => .ok c c.regs.d
  | .E => .ok c c.regs.e
  | .H => .ok c c.regs.h
  | .L => .ok c c.regs.l
  | .HL => cpuLoadM c.regs.get_hl .Byte c
  | .A => .ok c c.regs.a
  | .D8 => cpuLoadM c.pc .Byte c
  | _ => .err c

/-- `Cpu::set_r8`. -/
def set_r8 (target : Target) (value : Nat) : CpuM Unit := fun c =>
  match target with
  | .A => .ok { c with regs := { c.regs with a := value } } ()
  | .B => .ok { c with regs := { c.regs with b := value } } ()
  | .C => .ok { c with regs := { c.regs with c := value } } ()
  | .D => .ok { c with regs := { c.regs with d := value } } ()
  | .E => .ok { c with regs := { c.regs with e := value } } ()
  | .H => .ok { c with regs := { c.regs with h := value } } ()
  | .HL => cpuStoreM c.regs.get_hl .Byte value c
  | .L => .ok { c with regs := { c.regs with l := value } } ()
  | _ => .err c

/-- `Cpu::check_condition`. -/
def Cpu.check_condition (c : Cpu) (condition : Condition) : Bool :=
  match condition with
  | .NotZero => !c.regs.f.zero
  | .Zero => c.regs.f.zero
  | .NotCarry => !c.regs.f.carry
  | .Carry => c.regs.f.carry
  | .Always => true

/-- `(b as i8) as u16`: sign extension of an operand byte. -/
def i8AsU16 (b : Nat) : Nat := if b < 0x80 then b else 0xff00 ||| b

/-- The shared tail of `Cpu::execute`: `self.pc += len` (unchecked) and
return the instruction's base clock. -/
def instEnd (len clock : Nat) : CpuM Nat := do
  let c ← mGet
  let pc ← u16addM c.pc len
  mSet { c with pc := pc }
  pure clock

/-- The `Instruction::LDRR` arm of `Cpu::execute`, split out of the match
for readability; the cases follow cpu.rs lines 238-329 in order. -/
def execLDRR (source target : Target) : CpuM Unit :=
  match source, target with
      | .B, .B => pure ()
      | .C, .B => mModify fun c => { c with regs := { c.regs with b := c.regs.c } }
      | .D, .B => mModify fun c => { c with regs := { c.regs with b := c.regs.d } }
      | .E, .B => mModify fun c => { c with regs := { c.regs with b := c.regs.e } }
      | .H, .B => mModify fun c => { c with regs := { c.regs with b := c.regs.h } }
      | .L, .B => mModify fun c => { c with regs := { c.regs with b := c.regs.l } }
      | .HL, .B => do
          let c ← mGet
          let v ← cpuLoadM c.regs.get_hl .Byte
          mModify fun c => { c with regs := { c.regs with b := v } }
      | .A, .B => mModify fun c => { c with regs := { c.regs with b := c.regs.a } }
      | .B, .C => mModify fun c => { c with regs := { c.regs with c := c.regs.b } }
      | .C, .C => pure ()
      | .D, .C => mModify fun c => { c with regs := { c.regs with c := c.regs.d } }
      | .E, .C => mModify fun c => { c with regs := { c.regs with c := c.regs.e } }
      | .H, .C => mModify fun c => { c with regs := { c.regs with c := c.regs.h } }
      | .L, .C => mModify fun c => { c with regs := { c.regs with c := c.regs.l } }
      | .HL, .C => do
          let c ← mGet
          let v ← cpuLoadM c.regs.get_hl .Byte
          mModify fun c => { c with regs := { c.regs with c := v } }
      | .A, .C => mModify fun c => { c with regs := { c.regs with c := c.regs.a } }
      | .B, .D => mModify fun c => { c with regs := { c.regs with d := c.regs.b } }
      | .C, .D => mModify fun c => { c with regs := { c.regs with d := c.regs.c } }
      | .D, .D => pure ()
      | .E, .D => mModify fun c => { c with regs := { c.regs with d := c.regs.e } }
      | .H, .D => mModify fun c => { c with regs := { c.regs with d := c.regs.h } }
      | .L, .D => mModify fun c => { c with regs := { c.regs with d := c.regs.l } }
      | .HL, .D => do
          let c ← mGet
          let v ← cpuLoadM c.regs.get_hl .Byte
          mModify fun c => { c with regs := { c.regs with d := v } }
      | .A, .D => mModify fun c => { c with regs := { c.regs with d := c.regs.a } }
      | .B, .E => mModify fun c => { c with regs := { c.regs with e := c.regs.b } }
      | .C, .E => mModify fun c => { c with regs := { c.regs with e := c.regs.c } }
      | .D, .E => mModify fun c => { c with regs := { c.regs with e := c.regs.d } }
      | .E, .E => pure ()
      | .H, .E => mModify fun c => { c with regs := { c.regs with e := c.regs.h } }
      | .L, .E => mModify fun c => { c with regs := { c.regs with e := c.regs.l } }
      | .HL, .E => do
          let c ← mGet
          let v ← cpuLoadM c.regs.get_hl .Byte
          mModify fun c => { c with regs := { c.regs with e := v } }
      | .A, .E => mModify fun c => { c with regs := { c.regs with e := c.regs.a } }
      | .B, .H => mModify fun c => { c with regs := { c.regs with h := c.regs.b } }
      | .C, .H => mModify fun c => { c with regs := { c.regs with h := c.regs.c } }
      | .D, .H => mModify fun c => { c with regs := { c.regs with h := c.regs.d } }
      | .E, .H => mModify fun c => { c with regs := { c.regs with h := c.regs.e } }
      | .H, .H => pure ()
      | .L, .H => mModify fun c => { c with regs := { c.regs with h := c.regs.l } }
      | .HL, .H => do
          let c ← mGet
          let v ← cpuLoadM c.regs.get_hl .Byte
          mModify fun c => { c with regs := { c.regs with h := v } }
      | .A, .H => mModify fun c => { c with regs := { c.regs with h := c.regs.a } }
      | .B, .L => mModify fun c => { c with regs := { c.regs with l := c.regs.b } }
      | .C, .L => mModify fun c => { c with regs := { c.regs with l := c.regs.c } }
      | .D, .L => mModify fun c => { c with regs := { c.regs with l := c.regs.d } }
      | .E, .L => mModify fun c => { c with regs := { c.regs with l := c.regs.e } }
      | .H, .L => mModify fun c => { c with regs := { c.regs with l := c.regs.h } }
      | .L, .L => pure ()
      | .HL, .L => do
          let c ← mGet
          let v ← cpuLoadM c.regs.get_hl .Byte
          mModify fun c => { c with regs := { c.regs with l := v } }
      | .A, .L => mModify fun c => { c with regs := { c.regs with l := c.regs.a } }
      | .B, .HL => do
          let c ← mGet
          cpuStoreM c.regs.get_hl .Byte c.regs.b
      | .C, .HL => do
          let c ← mGet
          cpuStoreM c.regs.get_hl .Byte c.regs.c
      | .D, .HL => do
          let c ← mGet
          cpuStoreM c.regs.get_hl .Byte c.regs.d
      | .E, .HL => do
          let c ← mGet
          cpuStoreM c.regs.get_hl .Byte c.regs.e
      | .H, .HL => do
          let c ← mGet
          cpuStoreM c.regs.get_hl .Byte c.regs.h
      | .L, .HL => do
          let c ← mGet
          cpuStoreM c.regs.get_hl .Byte c.regs.l
      | .A, .HL => do
          let c ← mGet
          cpuStoreM c.regs.get_hl .Byte c.regs.a
      | .B, .A => mModify fun c => { c with regs := { c.regs with a := c.regs.b } }
      | .C, .A => mModify fun c => { c with regs := { c.regs with a := c.regs.c } }
      | .D, .A => mModify fun c => { c with regs := { c.regs with a := c.regs.d } }
      | .E, .A => mModify fun c => { c with regs := { c.regs with a := c.regs.e } }
      | .H, .A => mModify fun c => { c with regs := { c.regs with a := c.regs.h } }
      | .L, .A => mModify fun c => { c with regs := { c.regs with a := c.regs.l } }
      | .HL, .A => do
          let c ← mGet
          let v ← cpuLoadM c.regs.get_hl .Byte
          mModify fun c => { c with regs := { c.regs with a := v } }
      | .A, .A => pure ()
      | .A, .BC => do
          let c ← mGet
          cpuStoreM c.regs.get_bc .Byte c.regs.a
      | .A, .DE => do
          let c ← mGet
          cpuStoreM c.regs.get_de .Byte c.regs.a
      | .A, .HLINC => do
          let c ← mGet
          cpuStoreM c.regs.get_hl .Byte c.regs.a
          mModify fun c => { c with regs := c.regs.inc_hl }
      | .A, .HLDEC => do
          let c ← mGet
          cpuStoreM c.regs.get_hl .Byte c.regs.a
          mModify fun c => { c with regs := c.regs.dec_hl }
      | .BC, .A => do
          let c ← mGet
          let v ← cpuLoadM c.regs.get_bc .Byte
          mModify fun c => { c with regs := { c.regs with a := v } }
      | .DE, .A => do
          let c ← mGet
          let v ← cpuLoadM c.regs.get_de .Byte
          mModify fun c => { c with regs := { c.regs with a := v } }
      | .HLINC, .A => do
          let c ← mGet
          let v ← cpuLoadM c.regs.get_hl .Byte
          mModify fun c => { c with regs := { c.regs with a := v } }
          mModify fun c => { c with regs := c.regs.inc_hl }
      | .HLDEC, .A => do
          let c ← mGet
          let v ← cpuLoadM c.regs.get_hl .Byte
          mModify fun c => { c with regs := { c.regs with a := v } }
          mModify fun c => { c with regs := c.regs.dec_hl }
      | _, _ => mErr

/-- `Cpu::execute` (cpu.rs lines 167-587): run one non-prefix instruction
and return the clock passed. Arms that assign flag fields do so in source
order; `return Ok(n)` inside an arm bypasses the shared `pc += len` tail. -/
def Cpu.execute (inst : Instruction) : CpuM Nat := do
  let len := inst.len
  let clock := inst.clock
  match inst with
  | .NOP => instEnd len clock
  | .JP condition => do
      let c ← mGet
      if c.check_condition condition then do
        let addr ← cpuLoadM c.pc .Word
        mModify fun c => { c with pc := addr }
        pure 16
      else instEnd len clock
  | .JPHL => do
      mModify fun c => { c with pc := c.regs.get_hl }
      pure clock
  | .DI => do
      mModify fun c => { c with interrupt_state := .IDisableNext }
      instEnd len clock
  | .EI => do
      mModify fun c => { c with interrupt_state := .IEnableNext }
      instEnd len clock
  | .LDIMM16 target => do
      let c ← mGet
      let imm ← cpuLoadM c.pc .Word
      match target with
      | .BC => mModify fun c => { c with regs := c.regs.set_bc imm }
      | .DE => mModify fun c => { c with regs := c.regs.set_de imm }
      | .HL => mModify fun c => { c with regs := c.regs.set_hl imm }
      | .SP => mModify fun c => { c with sp := imm }
      | _ => mErr
      instEnd len clock
  | .LD16A => do
      let c ← mGet
      let addr ← cpuLoadM c.pc .Word
      let c ← mGet
      cpuStoreM addr .Byte c.regs.a
      instEnd len clock
  | .LDA16 => do
      let c ← mGet
      let addr ← cpuLoadM c.pc .Word
      let v ← cpuLoadM addr .Byte
      mModify fun c => { c with regs := { c.regs with a := v } }
      instEnd len clock
  | .LDA16SP => do
      let c ← mGet
      let addr ← cpuLoadM c.pc .Word
      let c ← mGet
      cpuStoreM addr .Word c.sp
      instEnd len clock
  | .LDSPHL => do
      mModify fun c => { c with sp := c.regs.get_hl }
      instEnd len clock
  | .LDIMM8 target => do
      let c ← mGet
      let imm ← cpuLoadM c.pc .Byte
      set_r8 target imm
      instEnd len clock
  | .LD8A => do
      let c ← mGet
      let off ← cpuLoadM c.pc .Byte
      let addr := 0xff00 + off
      let c ← mGet
      cpuStoreM addr .Byte c.regs.a
      instEnd len clock
  | .LDA8 => do
      let c ← mGet
      let off ← cpuLoadM c.pc .Byte
      let addr := 0xff00 + off
      let v ← cpuLoadM addr .Byte
      mModify fun c => { c with regs := { c.regs with a := v } }
      instEnd len clock
  | .LDCA => do
      let c ← mGet
      let addr := 0xff00 + c.regs.c
      cpuStoreM addr .Byte c.regs.a
      instEnd len clock
  | .LDAC => do
      let c ← mGet
      let addr := 0xff00 + c.regs.c
      let v ← cpuLoadM addr .Byte
      mModify fun c => { c with regs := { c.regs with a := v } }
      instEnd len clock
  | .LDRR source target => do
      execLDRR source target
      instEnd len clock
  | .CALL condition => do
      let c ← mGet
      if c.check_condition condition then do
        let addr ← cpuLoadM c.pc .Word
        let c ← mGet
        let dst ← u16subM c.sp 1
        let ret ← u16addM c.pc 2
        cpuStoreM dst .Word ret
        let c ← mGet
        let sp ← u16subM c.sp 2
        mSet { c with sp := sp, pc := addr }
        pure 24
      else instEnd len clock
  | .RET condition => do
      let c ← mGet
      if c.check_condition condition then do
        let src ← u16addM c.sp 1
        let addr ← cpuLoadM src .Word
        let c ← mGet
        let sp ← u16addM c.sp 2
        mSet { c with sp := sp, pc := addr }
        pure (if condition = .Always then 16 else 20)
      else instEnd len clock
  | .RETI => do
      mModify fun c => { c with interrupt_state := .IEnable }
      let c ← mGet
      let src ← u16addM c.sp 1
      let addr ← cpuLoadM src .Word
      let c ← mGet
      let sp ← u16addM c.sp 2
      mSet { c with sp := sp, pc := addr }
      pure clock
  | .PUSH target => do
      let c ← mGet
      let value ← match target with
        | .BC => pure c.regs.get_bc
        | .DE => pure c.regs.get_de
        | .HL => pure c.regs.get_hl
        | .AF => pure c.regs.get_af
        | _ => mErr
      let dst ← u16subM c.sp 1
      cpuStoreM dst .Word value
      let c ← mGet
      let sp ← u16subM c.sp 2
      mSet { c with sp := sp }
      instEnd len clock
  | .POP target => do
      let c ← mGet
      let src ← u16addM c.sp 1
      let value ← cpuLoadM src .Word
      match target with
      | .BC => mModify fun c => { c with regs := c.regs.set_bc value }
      | .DE => mModify fun c => { c with regs := c.regs.set_de value }
      | .HL => mModify fun c => { c with regs := c.regs.set_hl value }
      | .AF => mModify fun c => { c with regs := c.regs.set_af value }
      | _ => mErr
      let c ← mGet
      let sp ← u16addM c.sp 2
      mSet { c with sp := sp }
      instEnd len clock
  | .JR condition => do
      let c ← mGet
      if c.check_condition condition then do
        let off ← cpuLoadM c.pc .Byte
        let c ← mGet
        let pc := wrap16 c.pc (i8AsU16 off)
        let pc ← u16addM pc len
        mSet { c with pc := pc }
        pure 12
      else instEnd len clock
  | .INC16 target => do
      match target with
      | .BC => mModify fun c => { c with regs := c.regs.set_bc (wrap16 c.regs.get_bc 1) }
      | .DE => mModify fun c => { c with regs := c.regs.set_de (wrap16 c.regs.get_de 1) }
      | .HL => mModify fun c => { c with regs := c.regs.set_hl (wrap16 c.regs.get_hl 1) }
      | .SP => do
          let c ← mGet
          let sp ← u16addM c.sp 1
          mSet { c with sp := sp }
      | _ => mErr
      instEnd len clock
  | .DEC16 target => do
      match target with
      | .BC => mModify fun c => { c with regs := c.regs.set_bc (wrap16sub c.regs.get_bc 1) }
      | .DE => mModify fun c => { c with regs := c.regs.set_de (wrap16sub c.regs.get_de 1) }
      | .HL => mModify fun c => { c with regs := c.regs.set_hl (wrap16sub c.regs.get_hl 1) }
      | .SP => do
          let c ← mGet
          let sp ← u16subM c.sp 1
          mSet { c with sp := sp }
      | _ => mErr
      instEnd len clock
  | .INC8 target => do
      let value ← get_r8 target
      mModify fun c => { c with regs := { c.regs with f :=
        { c.regs.f with subtract := false, half_carry := value &&& 0x0f = 0x0f } } }
      let value := wrap8 value 1
      mModify fun c => { c with regs := { c.regs with f :=
        { c.regs.f with zero := value = 0 } } }
      set_r8 target value
      instEnd len clock
  | .DEC8 target => do
      let value ← get_r8 target
      mModify fun c => { c with regs := { c.regs with f :=
        { c.regs.f with subtract := true, half_carry := value &&& 0x0f = 0x00 } } }
      let value := wrap8sub value 1
      mModify fun c => { c with regs := { c.regs with f :=
        { c.regs.f with zero := value = 0 } } }
      set_r8 target value
      instEnd len clock
  | .ADD target => do
      let value ← get_r8 target
      mModify fun c => { c with regs := { c.regs with f :=
        { c.regs.f with subtract := false,
                        half_carry := (0x0f &&& c.regs.a) + (0x0f &&& value) > 0x0f,
                        carry := c.regs.a + value > 0xff } } }
      mModify fun c => { c with regs := { c.regs with a := wrap8 c.regs.a value } }
      mModify fun c => { c with regs := { c.regs with f :=
        { c.regs.f with zero := c.regs.a = 0 } } }
      instEnd len clock
  | .ADC target => do
      let value ← get_r8 target
      let c0 ← mGet
      -- the incoming carry is captured once, before the flags change
      let carry := if c0.regs.f.carry then 1 else 0
      mModify fun c => { c with regs := { c.regs with f :=
        { c.regs.f with subtract := false,
                        half_carry := (0x0f &&& c.regs.a) + (0x0f &&& value) + carry > 0x0f,
                        carry := c.regs.a + value + carry > 0xff } } }
      mModify fun c =>
        { c with regs := { c.regs with a := wrap8 (wrap8 c.regs.a value) carry } }
      mModify fun c => { c with regs := { c.regs with f :=
        { c.regs.f with zero := c.regs.a = 0 } } }
      instEnd len clock
  | .SUB target => do
      let value ← get_r8 target
      -- the FIXME'd flag computations, exactly as written
      mModify fun c => { c with regs := { c.regs with f :=
        { c.regs.f with subtract := true,
                        half_carry := (0x0f &&& c.regs.a) > (0x0f &&& value),
                        carry := c.regs.a > value } } }
      mModify fun c => { c with regs := { c.regs with a := wrap8sub c.regs.a value } }
      mModify fun c => { c with regs := { c.regs with f :=
        { c.regs.f with zero := c.regs.a = 0 } } }
      instEnd len clock
  | .SBC target => do
      let value ← get_r8 target
      let c0 ← mGet
      -- the incoming carry is captured once, before the flags change
      let carry := if c0.regs.f.carry then 1 else 0
      mModify fun c => { c with regs := { c.regs with f :=
        { c.regs.f with subtract := true,
                        half_carry := (0x0f &&& c.regs.a) > (0x0f &&& value) + carry,
                        carry := c.regs.a > value + carry } } }
      mModify fun c =>
        { c with regs := { c.regs with a := wrap8sub (wrap8sub c.regs.a value) carry } }
      mModify fun c => { c with regs := { c.regs with f :=
        { c.regs.f with zero := c.regs.a = 0 } } }
      instEnd len clock
  | .AND target => do
      let value ← get_r8 target
      mModify fun c => { c with regs := { c.regs with a := c.regs.a &&& value } }
      mModify fun c => { c with regs := { c.regs with f :=
        { zero := c.regs.a = 0, subtract := false, half_carry := true, carry := false } } }
      instEnd len clock
  | .XOR target => do
      let value ← get_r8 target
      mModify fun c => { c with regs := { c.regs with a := c.regs.a ^^^ value } }
      mModify fun c => { c with regs := { c.regs with f :=
        { zero := c.regs.a = 0, subtract := false, half_carry := false, carry := false } } }
      instEnd len clock
  | .OR target => do
      let value ← get_r8 target
      mModify fun c => { c with regs := { c.regs with a := c.regs.a ||| value } }
      mModify fun c => { c with regs := { c.regs with f :=
        { zero := c.regs.a = 0, subtract := false, half_carry := false, carry := false } } }
      instEnd len clock
  | .CMP target => do
      let value ← get_r8 target
      mModify fun c => { c with regs := { c.regs with f :=
        { zero := c.regs.a = value, subtract := true,
          half_carry := (0x0f &&& c.regs.a) > (0x0f &&& value),
          carry := c.regs.a < value } } }
      instEnd len clock
  | .RST addr => do
      -- PC was already advanced by the fetch, so RST stores PC+1 of the
      -- opcode, and `len` is 0
      let c ← mGet
      let dst ← u16subM c.sp 1
      cpuStoreM dst .Word c.pc
      let c ← mGet
      let sp ← u16subM c.sp 2
      mSet { c with sp := sp, pc := addr }
      instEnd len clock
  | .CPL => do
      mModify fun c => { c with regs := { c.regs with a := c.regs.a ^^^ 0xff, f :=
        { c.regs.f with subtract := true, half_carry := true } } }
      instEnd len clock
  | .CCF => do
      mModify fun c => { c with regs := { c.regs with f :=
        { c.regs.f with subtract := false, half_carry := false, carry := !c.regs.f.carry } } }
      instEnd len clock
  | .ADDHL target => do
      let c ← mGet
      let value ← match target with
        | .BC => pure c.regs.get_bc
        | .DE => pure c.regs.get_de
        | .HL => pure c.regs.get_hl
        | .SP => pure c.sp
        | _ => mErr
      let hl := c.regs.get_hl
      mModify fun c => { c with regs := { c.regs with f :=
        { c.regs.f with subtract := false,
                        half_carry := ((hl &&& 0xfff) + (value &&& 0xfff)) &&& 0x1000 ≠ 0,
                        carry := hl + value > 0xffff } } }
      -- `self.regs.set_hl(hl + value)`: an unchecked u16 addition
      let s ← u16addM hl value
      mModify fun c => { c with regs := c.regs.set_hl s }
      instEnd len clock
  | .RRA => do
      let c ← mGet
      let value := c.regs.a
      let result := (value >>> 1) ||| ((if c.regs.f.carry then 1 else 0) <<< 7)
      mModify fun c => { c with regs := { c.regs with f :=
        { zero := false, subtract := false, half_carry := false,
          carry := value &&& 0x01 ≠ 0 } } }
      mModify fun c => { c with regs := { c.regs with a := result } }
      instEnd len clock
  | .DAA => do
      let c ← mGet
      let value := c.regs.a
      let value ←
        if c.regs.f.subtract then do
          let value ← if c.regs.f.half_carry then do
              let v ← u16subM value 0x06
              pure (v &&& 0xff)
            else pure value
          if c.regs.f.carry then u16subM value 0x60 else pure value
        else do
          let value ← if c.regs.f.half_carry ∨ value &&& 0xf > 0 then
              u16addM value 0x06
            else pure value
          if c.regs.f.carry ∨ value > 0x9F then u16addM value 0x60 else pure value
      mModify fun c => { c with regs := { c.regs with f :=
        { c.regs.f with zero := value = 0, subtract := false, half_carry := false } } }
      mModify fun c =>
        if value &&& 0x100 ≠ 0 then
          { c with regs := { c.regs with f := { c.regs.f with carry := true } } }
        else c
      mModify fun c => { c with regs := { c.regs with a := value % 256 } }
      instEnd len clock
  | .RLCA => do
      -- rotate A left, through `get_r8`/`set_r8` as in the source;
      -- `value << 1` is a u8 shift, so its high bit is discarded
      let value ← get_r8 .A
      let result := ((value <<< 1) % 256) ||| (value >>> 7)
      mModify fun c => { c with regs := { c.regs with f :=
        { zero := result = 0, subtract := false, half_carry := false,
          carry := value &&& 0x80 ≠ 0 } } }
      set_r8 .A result
      instEnd len clock

/-- `Cpu::execute_cb` (cpu.rs lines 589-689). -/
def Cpu.execute_cb (inst : CBInstruction) : CpuM Nat := do
  let clock := inst.clock
  match inst with
  | .RLC target => do
      let value ← get_r8 target
      let result := ((value <<< 1) % 256) ||| (value >>> 7)
      mModify fun c => { c with regs := { c.regs with f :=
        { zero := result = 0, subtract := false, half_carry := false,
          carry := value &&& 0x80 ≠ 0 } } }
      set_r8 target result
      pure clock
  | .RRC target => do
      let value ← get_r8 target
      let result := (value >>> 1) ||| ((value <<< 7) % 256)
      mModify fun c => { c with regs := { c.regs with f :=
        { zero := result = 0, subtract := false, half_carry := false,
          carry := value &&& 0x01 ≠ 0 } } }
      set_r8 target result
      pure clock
  | .RL target => do
      let value ← get_r8 target
      let c ← mGet
      let result := ((value <<< 1) % 256) ||| (if c.regs.f.carry then 1 else 0)
      mModify fun c => { c with regs := { c.regs with f :=
        { zero := result = 0, subtract := false, half_carry := false,
          carry := value &&& 0x80 ≠ 0 } } }
      set_r8 target result
      pure clock
  | .RR target => do
      let value ← get_r8 target
      let c ← mGet
      let result := (value >>> 1) ||| ((if c.regs.f.carry then 1 else 0) <<< 7)
      mModify fun c => { c with regs := { c.regs with f :=
        { zero := result = 0, subtract := false, half_carry := false,
          carry := value &&& 0x01 ≠ 0 } } }
      set_r8 target result
      pure clock
  | .SLA target => do
      let value ← get_r8 target
      let result := (value <<< 1) % 256
      mModify fun c => { c with regs := { c.regs with f :=
        { zero := result = 0, subtract := false, half_carry := false,
          carry := value &&& 0x80 ≠ 0 } } }
      set_r8 target result
      pure clock
  | .SRA target => do
      let value ← get_r8 target
      let result := (value >>> 1) ||| (value &&& 0x80)
      mModify fun c => { c with regs := { c.regs with f :=
        { zero := result = 0, subtract := false, half_carry := false,
          carry := value &&& 0x01 ≠ 0 } } }
      set_r8 target result
      pure clock
  | .SWAP target => do
      let value ← get_r8 target
      let result := ((value <<< 4) % 256) ||| (value >>> 4)
      mModify fun c => { c with regs := { c.regs with f :=
        { zero := result = 0, subtract := false, half_carry := false, carry := false } } }
      set_r8 target result
      pure clock
  | .SRL target => do
      let value ← get_r8 target
      let result := value >>> 1
      mModify fun c => { c with regs := { c.regs with f :=
        { zero := result = 0, subtract := false, half_carry := false,
          carry := value &&& 0x01 ≠ 0 } } }
      set_r8 target result
      pure clock
  | .BIT target offset => do
      let v ← get_r8 target
      let value := (v >>> offset) &&& 0x01
      mModify fun c => { c with regs := { c.regs with f :=
        { c.regs.f with zero := value = 0, subtract := false, half_carry := true } } }
      pure clock
  | .RES target offset => do
      let value ← get_r8 target
      set_r8 target (value &&& (0xff ^^^ (1 <<< offset)))
      pure clock
  | .SET target offset => do
      let value ← get_r8 target
      set_r8 target (value ||| (1 <<< offset))
      pure clock

/-- `Cpu::exec_one_instruction`: fetch (with the 0xCB prefix handled),
decode, execute; an unknown primary byte is the decode error. -/
def exec_one_instruction : CpuM Nat := do
  let w ← cpuFetch
  let byte := w % 256
  if byte = 0xcb then do
    let w2 ← cpuFetch
    -- CB instruction is full, should not fail
    Cpu.execute_cb (CBInstruction.from_byte (w2 % 256))
  else
    match Instruction.from_byte byte with
    | some inst => Cpu.execute inst
    | none => mErr

/-- `Cpu::handle_interrupt` (cpu.rs lines 138-147): only the VBlank source
is dispatched; it clears the pending flag, disables IME, and services via
`RST 0x40`, returning that instruction's clock. -/
def handle_interrupt : CpuM Nat := do
  let c ← mGet
  if c.bus.interruptenb.vblank ∧ c.bus.gpu.is_interrupt then do
    mSet { c with
      bus := { c.bus with gpu := { c.bus.gpu with is_interrupt := false } },
      interrupt_state := .IDisable }
    Cpu.execute (.RST 0x40)
  else
    pure 0

/-- `Cpu::step` (cpu.rs lines 113-136): one instruction, device ticks,
interrupt service when IME permits, then the deferred IME transition. -/
def Cpu.step : CpuM Unit := do
  let clock ← exec_one_instruction
  mModify fun c => { c with bus := { c.bus with gpu := c.bus.gpu.update clock } }
  mModify fun c => { c with bus := { c.bus with timer := c.bus.timer.update clock } }
  let c ← mGet
  if c.interrupt_state = .IEnable ∨ c.interrupt_state = .IDisableNext then do
    let clock ← handle_interrupt
    mModify fun c => { c with bus := { c.bus with gpu := c.bus.gpu.update clock } }
    mModify fun c => { c with bus := { c.bus with timer := c.bus.timer.update clock } }
  else pure ()
  mModify fun c => { c with interrupt_state :=
    match c.interrupt_state with
    | .IDisableNext => .IDisable
    | .IEnableNext => .IEnable
    | s => s }

/-! ## Runners, well-formedness predicates, and concrete claim states -/

/-- Feed the PPU `n` cycles one at a time, counting the updates in which
the HBlank arm raises the VBlank interrupt. The `is_interrupt = true`
assignment in `Gpu::update` fires exactly when the mode passes from
HBlank to VBlank, so that transition is what the counter observes. -/
def gpuRunC : Nat → Gpu × Nat → Gpu × Nat
  | 0, p => p
  | n+1, (g, k) =>
    let g' := g.update 1
    gpuRunC n (g', k + if g.mode = .HBlank ∧ g'.mode = .VBlank then 1 else 0)

/-- The bus layout produced by `Bus::new`: region bases, sizes and
permissions (the data bytes are unconstrained). -/
def BusWF (b : Bus) : Prop :=
  b.catridge.base = 0x0000 ∧ b.catridge.size = 0x8000 ∧ b.catridge.permission = .ReadOnly ∧
  b.ram.base = 0xc000 ∧ b.ram.size = 0x2000 ∧ b.ram.permission = .Normal ∧
  b.hram.base = 0xff80 ∧ b.hram.size = 0x7f ∧ b.hram.permission = .Normal ∧
  b.unusable.base = 0xfea0 ∧ b.unusable.size = 0x60 ∧ b.unusable.permission = .Invalid

instance (b : Bus) : Decidable (BusWF b) := by
  unfold BusWF
  exact inferInstance

/-- All register bytes in `u8` range (true by type in the Rust source). -/
def RegsWF (r : Register) : Prop :=
  r.a ≤ 0xff ∧ r.b ≤ 0xff ∧ r.c ≤ 0xff ∧ r.d ≤ 0xff ∧
  r.e ≤ 0xff ∧ r.h ≤ 0xff ∧ r.l ≤ 0xff

instance (r : Register) : Decidable (RegsWF r) := by
  unfold RegsWF
  exact inferInstance

/-- An address in writable RAM: the work-RAM region or high RAM. -/
def writableAddr (a : Nat) : Prop :=
  (0xc000 ≤ a ∧ a ≤ 0xdfff) ∨ (0xff80 ≤ a ∧ a ≤ 0xfffe)

instance (a : Nat) : Decidable (writableAddr a) := by
  unfold writableAddr
  exact inferInstance

/-- States of the bus reachable from reset by PPU updates and bus stores
(claim C10): the initial state for an arbitrary cartridge image, a
`Gpu::update` with an arbitrary clock, and a `Bus::store` of an arbitrary
byte, whether it returns `Ok` or `Err` (a panic leaves no state). -/
inductive BusReach : Bus → Prop where
  | init (binary : List Nat) : BusReach (busNew binary)
  | update (b : Bus) (clock : Nat) :
      BusReach b → BusReach { b with gpu := b.gpu.update clock }
  | storeOk (b b' : Bus) (addr value : Nat) :
      BusReach b → b.store addr value = .ok b' () → BusReach b'
  | storeErr (b b' : Bus) (addr value : Nat) :
      BusReach b → b.store addr value = .err b' → BusReach b'

/-- The strengthened PPU invariant: the line counter never exceeds 152,
and outside VBlank it never exceeds 143. -/
def GpuInv (g : Gpu) : Prop :=
  g.line ≤ 152 ∧ (g.mode ≠ .VBlank → g.line ≤ 143)

/-- Claim C1's cartridge: `JP 0x0300` (C3 00 03) at 0x0300, so that the
instruction executed by the step leaves PC at 0x0300 when the interrupt
is dispatched. -/
def c1cart : Memory :=
  ⟨0x0000, 0x8000,
   fun i => if i = 0x300 then 0xc3 else if i = 0x301 then 0x00 else
            if i = 0x302 then 0x03 else 0,
   .ReadOnly⟩

/-- Claim C1's machine: IME=Enabled, IE=0x01 (VBlank only), PC=0x0300,
SP=0xFFFE, IF.VBlank pending. -/
def c1cpu : Cpu where
  regs := registerDefault
  sp := 0xfffe
  pc := 0x0300
  bus := { busNew [] with
    catridge := c1cart
    gpu := { gpuNew with is_interrupt := true }
    interruptenb := ⟨true, false, false, false, false⟩ }
  interrupt_state := .IEnable

/-- The machine after claim C1's single `step()`, when it succeeded. -/
def c1final : Option Cpu :=
  match Cpu.step c1cpu with
  | .ok s _ => some s
  | _ => none

/-- The clock returned by `Cpu::handle_interrupt` inside claim C1's step,
reproduced by running the step's stages up to the service call (one
instruction, the two device ticks, then the service). -/
def c1isrClock : Option Nat :=
  match exec_one_instruction c1cpu with
  | .ok s clock =>
    let s := { s with bus := { s.bus with gpu := s.bus.gpu.update clock } }
    let s := { s with bus := { s.bus with timer := s.bus.timer.update clock } }
    match handle_interrupt s with
    | .ok _ n => some n
    | _ => none
  | _ => none

/-- Claim C2's timer: enabled at 1024 cycles per tick, TIMA=0xFF,
TMA=0x42 (the state a TAC=0x04 write would configure). -/
def c2timer : Timer :=
  ⟨0, 0xff, 0x42, ⟨.X1, true⟩, 0, 0, 1024, false⟩

/-- Claim C3's cartridge: the immediate operand byte 0x01 at 0x0200. -/
def c3cart : Memory :=
  ⟨0x0000, 0x8000, fun i => if i = 0x200 then 0x01 else 0, .ReadOnly⟩

/-- Claim C3's machine: A=0x10 with PC at the `SUB d8` operand. -/
def c3cpu : Cpu where
  regs := { registerDefault with a := 0x10 }
  sp := 0
  pc := 0x0200
  bus := { busNew [] with catridge := c3cart }
  interrupt_state := .IDisable

/-- The machine after executing claim C3's `SUB d8`. -/
def c3final : Option Cpu :=
  match Cpu.execute (.SUB .D8) c3cpu with
  | .ok s _ => some s
  | _ => none

/-- Claim C6's machine: HL = 0x8000, about to execute `ADD HL, HL`. -/
def c6cpu : Cpu where
  regs := { registerDefault with h := 0x80, l := 0x00 }
  sp := 0
  pc := 0x0200
  bus := busNew []
  interrupt_state := .IDisable

/-- Claim C8's witness machine: the undecodable byte 0xD3 at the reset
PC 0x0100. -/
def c8cpu : Cpu := cpuNew (List.replicate 0x100 0 ++ [0xd3])

/-- Claim C8's counterexample machine: PC=0xFFFF, where the byte read is
the IE latch, set to 0x08 (not 0xCB and not in the primary table). -/
def c8cexCpu : Cpu where
  regs := registerDefault
  sp := 0
  pc := 0xffff
  bus := { busNew [] with interruptenb := ⟨false, false, false, true, false⟩ }
  interrupt_state := .IDisable

/-- Claim C9's counterexample machine: A = 0 before `RLCA`. -/
def c9cpu : Cpu where
  regs := registerDefault
  sp := 0
  pc := 0x0200
  bus := busNew []
  interrupt_state := .IDisable

/-- The flags after claim C9's `RLCA` on A=0. -/
def c9flags : Option FlagRegister :=
  match Cpu.execute .RLCA c9cpu with
  | .ok s _ => some s.regs.f
  | _ => none

/-- Claim C7's witness machine: distinctive register contents, SP=0xFFFE
(so the pushed word lands in high RAM at 0xFFFD/0xFFFE). -/
def c7cpu : Cpu where
  regs := ⟨0x56, 0x12, 0x34, 0x9a, 0xbc, ⟨true, false, true, true⟩, 0xde, 0xf0⟩
  sp := 0xfffe
  pc := 0x0200
  bus := busNew []
  interrupt_state := .IDisable

/-- Claim C5's counterexample timer: internal divider accumulator at 200. -/
def c5timer : Timer :=
  ⟨0x12, 0, 0, ⟨.X1, false⟩, 200, 0, 0, false⟩

/-! ## Helper lemmas -/

theorem M_bind_apply (x : M σ α) (f : α → M σ β) (s : σ) :
    (x >>= f) s =
      match x s with
      | .panic => .panic
      | .err s' => .err s'
      | .ok s' a => f a s' := rfl

theorem M_pure_apply (a : α) (s : σ) : (pure a : M σ α) s = .ok s a := rfl

theorem mGet_apply (s : σ) : (mGet : M σ σ) s = .ok s s := rfl

theorem mSet_apply (s' s : σ) : (mSet s' : M σ Unit) s = .ok s' () := rfl

theorem mModify_apply (f : σ → σ) (s : σ) : (mModify f : M σ Unit) s = .ok (f s) () := rfl

theorem mErr_apply (s : σ) : (mErr : M σ α) s = .err s := rfl

theorem and_0xff (x : Nat) : x &&& 0xff = x % 256 := by
  have h : x &&& 0xff = x &&& (2 ^ 8 - 1) := by norm_num
  rw [h, Nat.and_pow_two_sub_one_eq_mod]

theorem lor_shl8_shr (a b : Nat) (hb : b < 256) : ((a <<< 8) ||| b) >>> 8 = a := by
  apply Nat.eq_of_testBit_eq
  intro i
  rw [Nat.testBit_shiftRight, Nat.testBit_lor, Nat.testBit_shiftLeft]
  have hf : b.testBit (8 + i) = false := by
    apply Nat.testBit_lt_two_pow
    calc b < 256 := hb
    _ = 2 ^ 8 := by norm_num
    _ ≤ 2 ^ (8 + i) := Nat.pow_le_pow_right (by norm_num) (by omega)
  simp [hf, Nat.add_sub_cancel_left, show 8 ≤ 8 + i by omega]

theorem lor_shl8_mod (a b : Nat) : ((a <<< 8) ||| b) % 256 = b % 256 := by
  have h8 : (256 : Nat) = 2 ^ 8 := by norm_num
  rw [h8]
  apply Nat.eq_of_testBit_eq
  intro i
  rw [Nat.testBit_mod_two_pow, Nat.testBit_mod_two_pow, Nat.testBit_lor,
    Nat.testBit_shiftLeft]
  rcases Nat.lt_or_ge i 8 with h | h
  · simp [h, Nat.not_le.mpr h]
  · simp [Nat.not_lt.mpr h]

theorem lor_shl8_eq_add (a b : Nat) (hb : b < 256) : (a <<< 8) ||| b = 256 * a + b := by
  have hd := Nat.div_add_mod ((a <<< 8) ||| b) 256
  have h1 : ((a <<< 8) ||| b) / 256 = a := by
    have h := lor_shl8_shr a b hb
    rw [Nat.shiftRight_eq_div_pow] at h
    norm_num at h
    exact h
  have h2 : ((a <<< 8) ||| b) % 256 = b := by
    rw [lor_shl8_mod, Nat.mod_eq_of_lt hb]
  omega

theorem assemble16 (v : Nat) (hv : v < 65536) :
    ((((v >>> 8) &&& 0xff) <<< 8) ||| (v &&& 0xff)) = v := by
  rw [and_0xff, and_0xff, Nat.shiftRight_eq_div_pow]
  norm_num
  have h1 : v / 256 % 256 = v / 256 := Nat.mod_eq_of_lt (by omega)
  rw [h1, lor_shl8_eq_add _ _ (by omega)]
  omega

theorem flagToU8_lt (f : FlagRegister) : flagToU8 f < 256 := by
  rcases f with ⟨z, s, h, c⟩
  cases z <;> cases s <;> cases h <;> cases c <;> decide

theorem flag_roundtrip (f : FlagRegister) : flagFromU8 (flagToU8 f) = f := by
  rcases f with ⟨z, s, h, c⟩
  cases z <;> cases s <;> cases h <;> cases c <;> decide

/-! ## Claim theorems -/

/-- C2 (code_bug evaluation): with the timer enabled at 1024 cycles per
tick, TIMA=0xFF and TMA=0x42, `Timer::update(1024)` advances DIV once,
leaves TIMA at 0xFF, bumps TMA to 0x43 (instead of reloading TIMA from
TMA), and never raises the timer interrupt — against the claim's
TIMA=0x42 with IF.Timer set. -/
theorem c2_timer_overflow_misfires :
    c2timer.update 1024 = { c2timer with div := 1, div_counter := 768, tma := 0x43 } ∧
    (c2timer.update 1024).tima = 0xff ∧
    (c2timer.update 1024).tima ≠ 0x42 ∧
    (c2timer.update 1024).is_interrupt = false := by
  decide

/-- C5 (counterexample): storing to 0xFF04 with the internal divider
accumulator at 200 leaves the accumulator at 200, not 0 as claimed. -/
theorem c5_div_counter_not_reset :
    Option.map Timer.div_counter (c5timer.deviceStore 0xff04 0x55) = some 200 ∧
    Option.map Timer.div_counter (c5timer.deviceStore 0xff04 0x55) ≠ some 0 := by
  decide

/-- C5 (amended): for every timer state and every written value, a store
to 0xFF04 zeroes the observed DIV byte and changes nothing else — in
particular the internal divider accumulator keeps its old value. -/
theorem c5_div_store_zeroes_div_only (t : Timer) (value : Nat) :
    t.deviceStore 0xff04 value = some { t with div := 0 } := by
  simp [Timer.deviceStore]

/-- C3 (code_bug evaluation): with A=0x10, `SUB d8` with operand 0x01
yields A=0x0F, Z=0, N=1 as claimed but H=0 and C=1, against the claimed
H=1 (borrow from bit 4) and C=0 (no borrow from bit 8): the source
computes H as `(A & 0xf) > (v & 0xf)` and C as `A > v`. -/
theorem c3_sub_borrow_flags_inverted :
    Option.map (fun c => (c.regs.a, c.regs.f.zero, c.regs.f.subtract,
      c.regs.f.half_carry, c.regs.f.carry)) c3final =
      some (0x0f, false, true, false, true) := by
  decide

/-- C6 (code_bug evaluation): `ADD HL, HL` with HL=0x8000 aborts — the
source computes `hl + value` with an unchecked `u16` addition, which
overflows past 0xFFFF instead of wrapping as claimed. -/
theorem c6_addhl_overflow_aborts :
    Cpu.execute (.ADDHL .HL) c6cpu = .panic := by
  rfl

/-- C1 (counterexample): in the claim's concrete scenario the interrupt
service returns 16 cycles, not the claimed 20 (`RST`'s table clock is
16). -/
theorem c1_isr_cost_is_16_not_20 :
    c1isrClock = some 16 ∧ c1isrClock ≠ some 20 := by
  decide

/-- C1 (amended): with `JP 0x0300` at 0x0300 (so the executed instruction
leaves PC at 0x0300), the step dispatches the pending VBlank interrupt
after the instruction: SP drops to 0xFFFC, the word 0x0300 sits at
0xFFFD/0xFFFE little-endian, PC becomes 0x0040, IME is Disabled, the
pending flag is cleared, and the service itself costs 16 cycles. -/
theorem c1_vblank_dispatch :
    Option.map Cpu.pc c1final = some 0x0040 ∧
    Option.map Cpu.sp c1final = some 0xfffc ∧
    Option.map Cpu.interrupt_state c1final = some .IDisable ∧
    Option.map (fun c => c.bus.gpu.is_interrupt) c1final = some false ∧
    Option.bind c1final (fun c => c.bus.load 0xfffd) = some 0x00 ∧
    Option.bind c1final (fun c => c.bus.load 0xfffe) = some 0x03 ∧
    c1isrClock = some 16 := by
  decide

/-- C9 (counterexample): `RLCA` with A=0 sets Z=1 (the source computes
`Z = result == 0`), against the claimed constant Z=0. -/
theorem c9_rlca_sets_zero_flag :
    Option.map FlagRegister.zero c9flags = some true ∧
    Option.map FlagRegister.zero c9flags ≠ some false := by
  decide

/-- C8 (counterexample): at PC=0xFFFF with IE=0x08 the fetched byte 0x08
is neither 0xCB nor in the primary table, yet `step()` aborts in the
word fetch (`addr + 1` overflows u16) instead of returning Err. -/
theorem c8_step_panics_at_pc_ffff :
    c8cexCpu.bus.load c8cexCpu.pc = some 0x08 ∧
    Instruction.from_byte 0x08 = none ∧
    (0x08 : Nat) ≠ 0xcb ∧
    Cpu.step c8cexCpu = .panic := by
  refine ⟨by decide, by decide, by decide, rfl⟩

/-- C9 (amended): of the non-CB rotates only `RLCA` and `RRA` are
implemented. For every A and carry flag, `RRA` sets Z=0, N=0, H=0 and
C = bit 0 of the original A as claimed; `RLCA` sets N=0, H=0 and C =
bit 7 of the original A, but computes Z from the result (Z=1 when the
rotated result is zero) instead of the claimed constant Z=0. -/
theorem c9_rotates_on_a (c : Cpu) (ha : c.regs.a ≤ 0xff) (hpc : c.pc + 1 ≤ 0xffff) :
    Cpu.execute .RRA c = .ok { c with
      regs := { c.regs with
        a := (c.regs.a >>> 1) ||| ((if c.regs.f.carry then 1 else 0) <<< 7),
        f := ⟨false, false, false, decide (c.regs.a &&& 0x01 ≠ 0)⟩ },
      pc := c.pc + 1 } 4 ∧
    Cpu.execute .RLCA c = .ok { c with
      regs := { c.regs with
        a := ((c.regs.a <<< 1) % 256) ||| (c.regs.a >>> 7),
        f := ⟨decide ((((c.regs.a <<< 1) % 256) ||| (c.regs.a >>> 7)) = 0), false, false,
              decide (c.regs.a &&& 0x80 ≠ 0)⟩ },
      pc := c.pc + 1 } 4 := by
  constructor
  · unfold Cpu.execute
    simp only [instEnd, u16addM, mGet, mSet, mModify, mErr, mPanic,
      M_bind_apply, M_pure_apply, Instruction.len, Instruction.clock]
    rw [if_pos hpc]
  · unfold Cpu.execute
    simp only [instEnd, u16addM, get_r8, set_r8, mGet, mSet, mModify, mErr, mPanic,
      M_bind_apply, M_pure_apply, Instruction.len, Instruction.clock]
    rw [if_pos hpc]

/-- C9 (witness): the amended rotate characterization applied at the
concrete machine with A=0. -/
theorem c9_rotates_on_a_witness :
    c9cpu.regs.a ≤ 0xff ∧ c9cpu.pc + 1 ≤ 0xffff ∧
    (Cpu.execute .RRA c9cpu = .ok { c9cpu with
      regs := { c9cpu.regs with
        a := (c9cpu.regs.a >>> 1) ||| ((if c9cpu.regs.f.carry then 1 else 0) <<< 7),
        f := ⟨false, false, false, decide (c9cpu.regs.a &&& 0x01 ≠ 0)⟩ },
      pc := c9cpu.pc + 1 } 4 ∧
    Cpu.execute .RLCA c9cpu = .ok { c9cpu with
      regs := { c9cpu.regs with
        a := ((c9cpu.regs.a <<< 1) % 256) ||| (c9cpu.regs.a >>> 7),
        f := ⟨decide ((((c9cpu.regs.a <<< 1) % 256) ||| (c9cpu.regs.a >>> 7)) = 0), false, false,
              decide (c9cpu.regs.a &&& 0x80 ≠ 0)⟩ },
      pc := c9cpu.pc + 1 } 4) :=
  ⟨by decide, by decide, c9_rotates_on_a c9cpu (by decide) (by decide)⟩

/-- C8 (amended): for every machine state with PC at most 0xFFFE whose
byte at PC is neither 0xCB nor an entry of the primary opcode table,
`step()` returns Err and the only state change is that PC has advanced by
one; this also covers the case where the word fetch itself fails on the
bus. (At PC=0xFFFF the unchecked `addr + 1` in the word fetch aborts
instead, see the counterexample; and a fetched 0xCB prefix never produces
a decode error because `CBInstruction.from_byte` is total by type.) -/
theorem c8_decode_error_only_advances_pc (c : Cpu) (byte : Nat) (hpc : c.pc ≤ 0xfffe)
    (hb : c.bus.load c.pc = some byte) (hlt : byte ≤ 0xff)
    (hcb : byte ≠ 0xcb) (hdec : Instruction.from_byte byte = none) :
    Cpu.step c = .err { c with pc := c.pc + 1 } := by
  have hmod : ∀ msb : Nat, ((msb <<< 8) ||| byte) % 256 = byte := by
    intro msb
    rw [lor_shl8_mod, Nat.mod_eq_of_lt (by omega)]
  unfold Cpu.step exec_one_instruction cpuFetch cpuLoadM Bus.load16
  simp only [M_bind_apply, M_pure_apply]
  rcases h1 : c.bus.load (c.pc + 1) with _ | msb
  · simp [h1, hpc, mErr_apply]
  · simp [h1, hb, hpc, hmod, hcb, hdec, mErr_apply]

/-- C8 (witness): the undecodable byte 0xD3 at the reset PC 0x0100 makes
`step()` return Err with PC advanced to 0x0101 and nothing else changed. -/
theorem c8_decode_error_witness :
    c8cpu.pc ≤ 0xfffe ∧ c8cpu.bus.load c8cpu.pc = some 0xd3 ∧
    (0xd3 : Nat) ≤ 0xff ∧ (0xd3 : Nat) ≠ 0xcb ∧
    Instruction.from_byte 0xd3 = none ∧
    Cpu.step c8cpu = .err { c8cpu with pc := c8cpu.pc + 1 } :=
  ⟨by decide, by decide, by decide, by decide, by decide,
   c8_decode_error_only_advances_pc c8cpu 0xd3 (by decide) (by decide) (by decide)
     (by decide) (by decide)⟩

theorem bus_load_ram (b : Bus) (a : Nat) (wf : BusWF b)
    (h1 : 0xc000 ≤ a) (h2 : a ≤ 0xdfff) :
    b.load a = some (b.ram.data (a - 0xc000)) := by
  obtain ⟨c1, c2, _, r1, r2, r3, _, _, _, _, _, _⟩ := wf
  unfold Bus.load
  rw [if_neg (by simp [Memory.contains, Memory.range, c1, c2]; omega)]
  rw [if_pos (by simp [Memory.contains, Memory.range, r1, r2]; omega)]
  simp only [Memory.load, r3, r1, r2]
  rw [if_pos (by omega : a - 49152 < 8192)]

theorem bus_load_hram (b : Bus) (a : Nat) (wf : BusWF b)
    (h1 : 0xff80 ≤ a) (h2 : a ≤ 0xfffe) :
    b.load a = some (b.hram.data (a - 0xff80)) := by
  obtain ⟨c1, c2, _, r1, r2, _, q1, q2, q3, _, _, _⟩ := wf
  unfold Bus.load
  rw [if_neg (by simp [Memory.contains, Memory.range, c1, c2]; omega)]
  rw [if_neg (by simp [Memory.contains, Memory.range, r1, r2]; omega)]
  rw [if_pos (by simp [Memory.contains, Memory.range, q1, q2]; omega)]
  simp only [Memory.load, q3, q1, q2]
  rw [if_pos (by omega : a - 65408 < 127)]

theorem bus_store_ram (b : Bus) (a v : Nat) (wf : BusWF b)
    (h1 : 0xc000 ≤ a) (h2 : a ≤ 0xdfff) :
    b.store a v = .ok { b with ram := { b.ram with
      data := fun i => if i = a - 0xc000 then v else b.ram.data i } } () := by
  obtain ⟨c1, c2, _, r1, r2, r3, _, _, _, _, _, _⟩ := wf
  unfold Bus.store Bus.storeF
  rw [if_neg (by simp [Memory.contains, Memory.range, c1, c2]; omega)]
  rw [if_pos (by simp [Memory.contains, Memory.range, r1, r2]; omega)]
  simp only [Memory.store, r3, r1, r2]
  rw [if_pos (by omega : a - 49152 < 8192)]

theorem bus_store_hram (b : Bus) (a v : Nat) (wf : BusWF b)
    (h1 : 0xff80 ≤ a) (h2 : a ≤ 0xfffe) :
    b.store a v = .ok { b with hram := { b.hram with
      data := fun i => if i = a - 0xff80 then v else b.hram.data i } } () := by
  obtain ⟨c1, c2, _, r1, r2, _, q1, q2, q3, _, _, _⟩ := wf
  unfold Bus.store Bus.storeF
  rw [if_neg (by simp [Memory.contains, Memory.range, c1, c2]; omega)]
  rw [if_neg (by simp [Memory.contains, Memory.range, r1, r2]; omega)]
  rw [if_pos (by simp [Memory.contains, Memory.range, q1, q2]; omega)]
  simp only [Memory.store, q3, q1, q2]
  rw [if_pos (by omega : a - 65408 < 127)]

/-- A store to a writable address succeeds, preserves the bus layout, and
is read back by loads, which are unchanged at all other writable
addresses. -/
theorem bus_store_writable (b : Bus) (a v : Nat) (wf : BusWF b) (h : writableAddr a) :
    ∃ b', b.store a v = .ok b' () ∧ BusWF b' ∧
      b'.load a = some v ∧
      (∀ a2, writableAddr a2 → a2 ≠ a → b'.load a2 = b.load a2) := by
  rcases h with ⟨ha1, ha2⟩ | ⟨ha1, ha2⟩
  · refine ⟨{ b with ram := { b.ram with
        data := fun i => if i = a - 0xc000 then v else b.ram.data i } },
      bus_store_ram b a v wf ha1 ha2, wf, ?_, ?_⟩
    all_goals
      have wf' : BusWF { b with ram := { b.ram with
          data := fun i => if i = a - 0xc000 then v else b.ram.data i } } := wf
    · rw [bus_load_ram _ a wf' ha1 ha2]
      simp
    · intro a2 hw2 hne
      rcases hw2 with ⟨hb1, hb2⟩ | ⟨hb1, hb2⟩
      · rw [bus_load_ram _ a2 wf' hb1 hb2, bus_load_ram b a2 wf hb1 hb2]
        simp only []
        rw [if_neg (by omega)]
      · rw [bus_load_hram _ a2 wf' hb1 hb2, bus_load_hram b a2 wf hb1 hb2]
  · refine ⟨{ b with hram := { b.hram with
        data := fun i => if i = a - 0xff80 then v else b.hram.data i } },
      bus_store_hram b a v wf ha1 ha2, wf, ?_, ?_⟩
    all_goals
      have wf' : BusWF { b with hram := { b.hram with
          data := fun i => if i = a - 0xff80 then v else b.hram.data i } } := wf
    · rw [bus_load_hram _ a wf' ha1 ha2]
      simp
    · intro a2 hw2 hne
      rcases hw2 with ⟨hb1, hb2⟩ | ⟨hb1, hb2⟩
      · rw [bus_load_ram _ a2 wf' hb1 hb2, bus_load_ram b a2 wf hb1 hb2]
      · rw [bus_load_hram _ a2 wf' hb1 hb2, bus_load_hram b a2 wf hb1 hb2]
        simp only []
        rw [if_neg (by omega)]

/-- `Bus::store16` then `Bus::load16` at a writable word address round-trips. -/
theorem bus_store16_load16 (b : Bus) (a v : Nat) (wf : BusWF b)
    (h1 : writableAddr a) (h2 : writableAddr (a + 1)) (ha : a + 1 ≤ 0xffff)
    (hv : v ≤ 0xffff) :
    ∃ b', b.store16 a v = .ok b' () ∧ BusWF b' ∧ b'.load16 a = .ok b' v := by
  obtain ⟨b1, hst1, wf1, hld1, hpre1⟩ := bus_store_writable b a (v &&& 0xff) wf h1
  obtain ⟨b2, hst2, wf2, hld2, hpre2⟩ :=
    bus_store_writable b1 (a + 1) ((v >>> 8) &&& 0xff) wf1 h2
  refine ⟨b2, ?_, wf2, ?_⟩
  · unfold Bus.store16
    rw [hst1]
    simp only []
    rw [if_pos ha, hst2]
  · unfold Bus.load16
    rw [if_pos ha, hld2]
    simp only []
    rw [hpre2 a h1 (by omega), hld1]
    simp only []
    rw [assemble16 v (by omega)]

theorem set_bc_get_bc (r : Register) (hb : r.b ≤ 0xff) (hc : r.c ≤ 0xff) :
    r.set_bc r.get_bc = r := by
  unfold Register.set_bc Register.get_bc
  rw [lor_shl8_shr _ _ (by omega), and_0xff, and_0xff, lor_shl8_mod,
    Nat.mod_eq_of_lt (by omega), Nat.mod_eq_of_lt (by omega)]

theorem set_de_get_de (r : Register) (hd : r.d ≤ 0xff) (he : r.e ≤ 0xff) :
    r.set_de r.get_de = r := by
  unfold Register.set_de Register.get_de
  rw [lor_shl8_shr _ _ (by omega), and_0xff, and_0xff, lor_shl8_mod,
    Nat.mod_eq_of_lt (by omega), Nat.mod_eq_of_lt (by omega)]

theorem set_hl_get_hl (r : Register) (hh : r.h ≤ 0xff) (hl : r.l ≤ 0xff) :
    r.set_hl r.get_hl = r := by
  unfold Register.set_hl Register.get_hl
  rw [lor_shl8_shr _ _ (by omega), and_0xff, and_0xff, lor_shl8_mod,
    Nat.mod_eq_of_lt (by omega), Nat.mod_eq_of_lt (by omega)]

/-- `PUSH AF; POP AF` restores F exactly: its byte image has low nibble
zero on the way out and the low nibble is dropped again on the way in. -/
theorem set_af_get_af (r : Register) (ha : r.a ≤ 0xff) :
    r.set_af r.get_af = r := by
  unfold Register.set_af Register.get_af
  rw [lor_shl8_shr _ _ (flagToU8_lt r.f), and_0xff, and_0xff, lor_shl8_mod,
    Nat.mod_eq_of_lt (by omega), Nat.mod_eq_of_lt (flagToU8_lt r.f), flag_roundtrip]

/-- C7: for every target pair in {BC, DE, HL, AF} and every machine state
with the `Bus::new` layout, in-range registers, SP at least 2, the pushed
word's two bytes (SP-1 and SP) in writable RAM, and room for the two PC
increments, `PUSH rr; POP rr` succeeds with the table cycle counts,
restores the register file and SP exactly, and advances PC by 2. For AF
this includes F: its byte image already has a zero low nibble when
pushed, and `set_af` masks the low nibble again when popped. -/
theorem c7_push_pop_roundtrip (c : Cpu) (t : Target)
    (ht : t = .BC ∨ t = .DE ∨ t = .HL ∨ t = .AF)
    (hwf : BusWF c.bus) (hr : RegsWF c.regs)
    (hsp2 : 2 ≤ c.sp) (hsp : c.sp ≤ 0xffff)
    (hw1 : writableAddr (c.sp - 1)) (hw2 : writableAddr c.sp)
    (hpc : c.pc + 2 ≤ 0xffff) :
    ∃ c1 c2, Cpu.execute (.PUSH t) c = .ok c1 16 ∧
             Cpu.execute (.POP t) c1 = .ok c2 12 ∧
             c2.regs = c.regs ∧ c2.sp = c.sp ∧ c2.pc = c.pc + 2 := by
  obtain ⟨ha, hb, hc, hd, he, hh, hl⟩ := hr
  have hsp1 : c.sp - 1 + 1 = c.sp := by omega
  rcases ht with rfl | rfl | rfl | rfl
  · -- PUSH BC / POP BC
    have hv : c.regs.get_bc ≤ 0xffff := by
      unfold Register.get_bc
      rw [lor_shl8_eq_add _ _ (by omega)]
      omega
    obtain ⟨b', hst, wf', hld⟩ :=
      bus_store16_load16 c.bus (c.sp - 1) c.regs.get_bc hwf hw1 (by rw [hsp1]; exact hw2)
        (by omega) hv
    refine ⟨{ c with bus := b', sp := c.sp - 2, pc := c.pc + 1 },
            { c with bus := b', regs := c.regs.set_bc c.regs.get_bc,
                     sp := c.sp - 2 + 2, pc := c.pc + 1 + 1 }, ?_, ?_, ?_, ?_, ?_⟩
    · unfold Cpu.execute instEnd cpuStoreM u16subM u16addM
      simp only [M_bind_apply, M_pure_apply, mGet_apply, mSet_apply, mModify_apply,
        mErr_apply, mPanic, Instruction.len, Instruction.clock]
      rw [if_pos (by omega : 1 ≤ c.sp)]
      simp only []
      rw [hst]
      simp only []
      rw [if_pos (by omega : 2 ≤ c.sp), if_pos (by omega : c.pc + 1 ≤ 0xffff)]
    · unfold Cpu.execute instEnd cpuLoadM u16subM u16addM
      simp only [M_bind_apply, M_pure_apply, mGet_apply, mSet_apply, mModify_apply,
        mErr_apply, mPanic, Instruction.len, Instruction.clock]
      rw [if_pos (by omega : c.sp - 2 + 1 ≤ 0xffff)]
      simp only []
      rw [(by omega : c.sp - 2 + 1 = c.sp - 1), hld]
      simp only []
      rw [if_pos (by omega : c.sp - 2 + 2 ≤ 0xffff),
        if_pos (by omega : c.pc + 1 + 1 ≤ 0xffff)]
    · exact set_bc_get_bc c.regs hb hc
    · show c.sp - 2 + 2 = c.sp
      omega
    · show c.pc + 1 + 1 = c.pc + 2
      omega
  · -- PUSH DE / POP DE
    have hv : c.regs.get_de ≤ 0xffff := by
      unfold Register.get_de
      rw [lor_shl8_eq_add _ _ (by omega)]
      omega
    obtain ⟨b', hst, wf', hld⟩ :=
      bus_store16_load16 c.bus (c.sp - 1) c.regs.get_de hwf hw1 (by rw [hsp1]; exact hw2)
        (by omega) hv
    refine ⟨{ c with bus := b', sp := c.sp - 2, pc := c.pc + 1 },
            { c with bus := b', regs := c.regs.set_de c.regs.get_de,
                     sp := c.sp - 2 + 2, pc := c.pc + 1 + 1 }, ?_, ?_, ?_, ?_, ?_⟩
    · unfold Cpu.execute instEnd cpuStoreM u16subM u16addM
      simp only [M_bind_apply, M_pure_apply, mGet_apply, mSet_apply, mModify_apply,
        mErr_apply, mPanic, Instruction.len, Instruction.clock]
      rw [if_pos (by omega : 1 ≤ c.sp)]
      simp only []
      rw [hst]
      simp only []
      rw [if_pos (by omega : 2 ≤ c.sp), if_pos (by omega : c.pc + 1 ≤ 0xffff)]
    · unfold Cpu.execute instEnd cpuLoadM u16subM u16addM
      simp only [M_bind_apply, M_pure_apply, mGet_apply, mSet_apply, mModify_apply,
        mErr_apply, mPanic, Instruction.len, Instruction.clock]
      rw [if_pos (by omega : c.sp - 2 + 1 ≤ 0xffff)]
      simp only []
      rw [(by omega : c.sp - 2 + 1 = c.sp - 1), hld]
      simp only []
      rw [if_pos (by omega : c.sp - 2 + 2 ≤ 0xffff),
        if_pos (by omega : c.pc + 1 + 1 ≤ 0xffff)]
    · exact set_de_get_de c.regs hd he
    · show c.sp - 2 + 2 = c.sp
      omega
    · show c.pc + 1 + 1 = c.pc + 2
      omega
  · -- PUSH HL / POP HL
    have hv : c.regs.get_hl ≤ 0xffff := by
      unfold Register.get_hl
      rw [lor_shl8_eq_add _ _ (by omega)]
      omega
    obtain ⟨b', hst, wf', hld⟩ :=
      bus_store16_load16 c.bus (c.sp - 1) c.regs.get_hl hwf hw1 (by rw [hsp1]; exact hw2)
        (by omega) hv
    refine ⟨{ c with bus := b', sp := c.sp - 2, pc := c.pc + 1 },
            { c with bus := b', regs := c.regs.set_hl c.regs.get_hl,
                     sp := c.sp - 2 + 2, pc := c.pc + 1 + 1 }, ?_, ?_, ?_, ?_, ?_⟩
    · unfold Cpu.execute instEnd cpuStoreM u16subM u16addM
      simp only [M_bind_apply, M_pure_apply, mGet_apply, mSet_apply, mModify_apply,
        mErr_apply, mPanic, Instruction.len, Instruction.clock]
      rw [if_pos (by omega : 1 ≤ c.sp)]
      simp only []
      rw [hst]
      simp only []
      rw [if_pos (by omega : 2 ≤ c.sp), if_pos (by omega : c.pc + 1 ≤ 0xffff)]
    · unfold Cpu.execute instEnd cpuLoadM u16subM u16addM
      simp only [M_bind_apply, M_pure_apply, mGet_apply, mSet_apply, mModify_apply,
        mErr_apply, mPanic, Instruction.len, Instruction.clock]
      rw [if_pos (by omega : c.sp - 2 + 1 ≤ 0xffff)]
      simp only []
      rw [(by omega : c.sp - 2 + 1 = c.sp - 1), hld]
      simp only []
      rw [if_pos (by omega : c.sp - 2 + 2 ≤ 0xffff),
        if_pos (by omega : c.pc + 1 + 1 ≤ 0xffff)]
    · exact set_hl_get_hl c.regs hh hl
    · show c.sp - 2 + 2 = c.sp
      omega
    · show c.pc + 1 + 1 = c.pc + 2
      omega
  · -- PUSH AF / POP AF
    have hv : c.regs.get_af ≤ 0xffff := by
      unfold Register.get_af
      rw [lor_shl8_eq_add _ _ (by exact flagToU8_lt c.regs.f)]
      have := flagToU8_lt c.regs.f
      omega
    obtain ⟨b', hst, wf', hld⟩ :=
      bus_store16_load16 c.bus (c.sp - 1) c.regs.get_af hwf hw1 (by rw [hsp1]; exact hw2)
        (by omega) hv
    refine ⟨{ c with bus := b', sp := c.sp - 2, pc := c.pc + 1 },
            { c with bus := b', regs := c.regs.set_af c.regs.get_af,
                     sp := c.sp - 2 + 2, pc := c.pc + 1 + 1 }, ?_, ?_, ?_, ?_, ?_⟩
    · unfold Cpu.execute instEnd cpuStoreM u16subM u16addM
      simp only [M_bind_apply, M_pure_apply, mGet_apply, mSet_apply, mModify_apply,
        mErr_apply, mPanic, Instruction.len, Instruction.clock]
      rw [if_pos (by omega : 1 ≤ c.sp)]
      simp only []
      rw [hst]
      simp only []
      rw [if_pos (by omega : 2 ≤ c.sp), if_pos (by omega : c.pc + 1 ≤ 0xffff)]
    · unfold Cpu.execute instEnd cpuLoadM u16subM u16addM
      simp only [M_bind_apply, M_pure_apply, mGet_apply, mSet_apply, mModify_apply,
        mErr_apply, mPanic, Instruction.len, Instruction.clock]
      rw [if_pos (by omega : c.sp - 2 + 1 ≤ 0xffff)]
      simp only []
      rw [(by omega : c.sp - 2 + 1 = c.sp - 1), hld]
      simp only []
      rw [if_pos (by omega : c.sp - 2 + 2 ≤ 0xffff),
        if_pos (by omega : c.pc + 1 + 1 ≤ 0xffff)]
    · exact set_af_get_af c.regs ha
    · show c.sp - 2 + 2 = c.sp
      omega
    · show c.pc + 1 + 1 = c.pc + 2
      omega

/-- C7 (witness): the round-trip applied to a concrete machine with
SP=0xFFFE and distinctive register contents, for the BC pair. -/
theorem c7_push_pop_roundtrip_witness :
    (c7cpu.regs.b = 0x12 ∧ c7cpu.regs.c = 0x34 ∧ c7cpu.sp = 0xfffe) ∧
    (∃ c1 c2, Cpu.execute (.PUSH .BC) c7cpu = .ok c1 16 ∧
              Cpu.execute (.POP .BC) c1 = .ok c2 12 ∧
              c2.regs = c7cpu.regs ∧ c2.sp = c7cpu.sp ∧ c2.pc = c7cpu.pc + 2) :=
  ⟨⟨by decide, by decide, by decide⟩,
   c7_push_pop_roundtrip c7cpu .BC (by decide) (by decide) (by decide) (by decide)
     (by decide) (by decide) (by decide) (by decide)⟩

theorem runC_add (m n : Nat) (p : Gpu × Nat) :
    gpuRunC (m + n) p = gpuRunC n (gpuRunC m p) := by
  induction m generalizing p with
  | zero => simp [gpuRunC]
  | succ j ih =>
    rcases p with ⟨g, k⟩
    show gpuRunC (j + 1 + n) (g, k) = _
    rw [show j + 1 + n = (j + n) + 1 by omega]
    simp only [gpuRunC]
    exact ih _

theorem runC_oam (n : Nat) :
    ∀ (g : Gpu) (k : Nat), 1 ≤ n → g.mode = .ScanlineOAM → g.clock + n = 80 →
    gpuRunC n (g, k) = ({ g with clock := 0, mode := .ScanlineVRAM }, k) := by
  induction n with
  | zero =>
    intro g k h1 _ _
    exact absurd h1 (by omega)
  | succ m ih =>
    intro g k _ h2 h3
    by_cases hm : m = 0
    · subst hm
      have hc : g.clock = 79 := by omega
      simp [gpuRunC, Gpu.update, wrap64, h2, hc]
    · have hupd : g.update 1 = { g with clock := g.clock + 1 } := by
        simp [Gpu.update, wrap64, h2, Nat.mod_eq_of_lt (show g.clock + 1 < 18446744073709551616 by omega)]
        omega
      have hcount : ((if g.mode = .HBlank ∧ (g.update 1).mode = .VBlank then 1 else 0) : Nat) = 0 := by
        simp [h2]
      show gpuRunC m (g.update 1, k + _) = _
      rw [hcount, hupd]
      have := ih { g with clock := g.clock + 1 } (k + 0) (by omega) (by simp [h2]) (by simp; omega)
      simpa using this

theorem runC_vram (n : Nat) :
    ∀ (g : Gpu) (k : Nat), 1 ≤ n → g.mode = .ScanlineVRAM → g.clock + n = 172 →
    gpuRunC n (g, k) = ({ g with clock := 0, mode := .HBlank }, k) := by
  induction n with
  | zero =>
    intro g k h1 _ _
    exact absurd h1 (by omega)
  | succ m ih =>
    intro g k _ h2 h3
    by_cases hm : m = 0
    · subst hm
      have hc : g.clock = 171 := by omega
      simp [gpuRunC, Gpu.update, wrap64, h2, hc]
    · have hupd : g.update 1 = { g with clock := g.clock + 1 } := by
        simp [Gpu.update, wrap64, h2, Nat.mod_eq_of_lt (show g.clock + 1 < 18446744073709551616 by omega)]
        omega
      have hcount : ((if g.mode = .HBlank ∧ (g.update 1).mode = .VBlank then 1 else 0) : Nat) = 0 := by
        simp [h2]
      show gpuRunC m (g.update 1, k + _) = _
      rw [hcount, hupd]
      have := ih { g with clock := g.clock + 1 } (k + 0) (by omega) (by simp [h2]) (by simp; omega)
      simpa using this

theorem runC_hblank_low (n : Nat) :
    ∀ (g : Gpu) (k : Nat), 1 ≤ n → g.mode = .HBlank → g.line ≤ 142 → g.clock + n = 204 →
    gpuRunC n (g, k) =
      ({ g with clock := 0, mode := .ScanlineOAM, line := g.line + 1 }, k) := by
  induction n with
  | zero =>
    intro g k h1 _ _ _
    exact absurd h1 (by omega)
  | succ m ih =>
    intro g k _ h2 hline h3
    by_cases hm : m = 0
    · subst hm
      have hc : g.clock = 203 := by omega
      simp [gpuRunC, Gpu.update, wrap64, h2, hc, Nat.not_le.mpr (show g.line < 143 by omega)]
    · have hupd : g.update 1 = { g with clock := g.clock + 1 } := by
        simp [Gpu.update, wrap64, h2, Nat.mod_eq_of_lt (show g.clock + 1 < 18446744073709551616 by omega)]
        omega
      have hcount : ((if g.mode = .HBlank ∧ (g.update 1).mode = .VBlank then 1 else 0) : Nat) = 0 := by
        simp [hupd, h2]
      show gpuRunC m (g.update 1, k + _) = _
      rw [hcount, hupd]
      have := ih { g with clock := g.clock + 1 } (k + 0) (by omega) (by simp [h2])
        (by simpa using hline) (by simp; omega)
      simpa using this

theorem runC_hblank_high (n : Nat) :
    ∀ (g : Gpu) (k : Nat), 1 ≤ n → g.mode = .HBlank → 143 ≤ g.line → g.clock + n = 204 →
    gpuRunC n (g, k) =
      ({ g with clock := 0, mode := .VBlank, line := g.line + 1, is_interrupt := true },
       k + 1) := by
  induction n with
  | zero =>
    intro g k h1 _ _ _
    exact absurd h1 (by omega)
  | succ m ih =>
    intro g k _ h2 hline h3
    by_cases hm : m = 0
    · subst hm
      have hc : g.clock = 203 := by omega
      simp [gpuRunC, Gpu.update, wrap64, h2, hc, hline]
    · have hupd : g.update 1 = { g with clock := g.clock + 1 } := by
        simp [Gpu.update, wrap64, h2, Nat.mod_eq_of_lt (show g.clock + 1 < 18446744073709551616 by omega)]
        omega
      have hcount : ((if g.mode = .HBlank ∧ (g.update 1).mode = .VBlank then 1 else 0) : Nat) = 0 := by
        simp [hupd, h2]
      show gpuRunC m (g.update 1, k + _) = _
      rw [hcount, hupd]
      have := ih { g with clock := g.clock + 1 } (k + 0) (by omega) (by simp [h2])
        (by simpa using hline) (by simp; omega)
      simpa using this

theorem runC_vblank_mid (n : Nat) :
    ∀ (g : Gpu) (k : Nat), 1 ≤ n → g.mode = .VBlank → g.line + 1 ≤ 152 → g.clock + n = 456 →
    gpuRunC n (g, k) = ({ g with clock := 0, line := g.line + 1 }, k) := by
  induction n with
  | zero =>
    intro g k h1 _ _ _
    exact absurd h1 (by omega)
  | succ m ih =>
    intro g k _ h2 hline h3
    by_cases hm : m = 0
    · subst hm
      have hc : g.clock = 455 := by omega
      simp [gpuRunC, Gpu.update, wrap64, h2, hc, Nat.not_le.mpr (show g.line + 1 < 153 by omega)]
    · have hupd : g.update 1 = { g with clock := g.clock + 1 } := by
        simp [Gpu.update, wrap64, h2, Nat.mod_eq_of_lt (show g.clock + 1 < 18446744073709551616 by omega)]
        omega
      have hcount : ((if g.mode = .HBlank ∧ (g.update 1).mode = .VBlank then 1 else 0) : Nat) = 0 := by
        simp [h2]
      show gpuRunC m (g.update 1, k + _) = _
      rw [hcount, hupd]
      have := ih { g with clock := g.clock + 1 } (k + 0) (by omega) (by simp [h2])
        (by simpa using hline) (by simp; omega)
      simpa using this

theorem runC_vblank_end (n : Nat) :
    ∀ (g : Gpu) (k : Nat), 1 ≤ n → g.mode = .VBlank → g.line = 152 → g.clock + n = 456 →
    gpuRunC n (g, k) =
      ({ g with clock := 0, line := 0, mode := .ScanlineOAM }, k) := by
  induction n with
  | zero =>
    intro g k h1 _ _ _
    exact absurd h1 (by omega)
  | succ m ih =>
    intro g k _ h2 hline h3
    by_cases hm : m = 0
    · subst hm
      have hc : g.clock = 455 := by omega
      simp [gpuRunC, Gpu.update, wrap64, h2, hc, hline]
    · have hupd : g.update 1 = { g with clock := g.clock + 1 } := by
        simp [Gpu.update, wrap64, h2, Nat.mod_eq_of_lt (show g.clock + 1 < 18446744073709551616 by omega)]
        omega
      have hcount : ((if g.mode = .HBlank ∧ (g.update 1).mode = .VBlank then 1 else 0) : Nat) = 0 := by
        simp [h2]
      show gpuRunC m (g.update 1, k + _) = _
      rw [hcount, hupd]
      have := ih { g with clock := g.clock + 1 } (k + 0) (by omega) (by simp [h2])
        (by simpa using hline) (by simp; omega)
      simpa using this

theorem runC_visible (g : Gpu) (k : Nat) (h1 : g.mode = .ScanlineOAM) (h2 : g.clock = 0)
    (h3 : g.line ≤ 142) :
    gpuRunC 456 (g, k) =
      ({ g with clock := 0, mode := .ScanlineOAM, line := g.line + 1 }, k) := by
  rw [show (456 : Nat) = 80 + (172 + 204) by norm_num, runC_add, runC_add]
  rw [runC_oam 80 g k (by omega) h1 (by omega)]
  rw [runC_vram 172 _ k (by omega) rfl (by simp)]
  rw [runC_hblank_low 204 _ k (by omega) rfl (by simpa using h3) (by simp)]

theorem runC_line143 (g : Gpu) (k : Nat) (h1 : g.mode = .ScanlineOAM) (h2 : g.clock = 0)
    (h3 : g.line = 143) :
    gpuRunC 456 (g, k) =
      ({ g with clock := 0, mode := .VBlank, line := g.line + 1, is_interrupt := true },
       k + 1) := by
  rw [show (456 : Nat) = 80 + (172 + 204) by norm_num, runC_add, runC_add]
  rw [runC_oam 80 g k (by omega) h1 (by omega)]
  rw [runC_vram 172 _ k (by omega) rfl (by simp)]
  rw [runC_hblank_high 204 _ k (by omega) rfl (by simpa using h3.ge) (by simp)]

theorem runC_visible_n (m : Nat) :
    ∀ (g : Gpu) (k : Nat), g.mode = .ScanlineOAM → g.clock = 0 → g.line + m ≤ 143 →
    gpuRunC (456 * m) (g, k) =
      ({ g with clock := 0, mode := .ScanlineOAM, line := g.line + m }, k) := by
  induction m with
  | zero =>
    intro g k h1 h2 h3
    rcases g with ⟨clk, ln, lc, bp, o0, o1, md, sy, sx, vr, oa, sp, ub, ii⟩
    simp only at h1 h2
    subst h1
    subst h2
    simp [gpuRunC]
  | succ j ih =>
    intro g k h1 h2 h3
    rw [show 456 * (j + 1) = 456 + 456 * j by ring, runC_add]
    rw [runC_visible g k h1 h2 (by omega)]
    rw [ih _ k rfl rfl (by simp; omega)]
    have he : g.line + 1 + j = g.line + (j + 1) := by omega
    simp [he]

theorem runC_vblank_n (m : Nat) :
    ∀ (g : Gpu) (k : Nat), g.mode = .VBlank → g.clock = 0 → g.line + m ≤ 152 →
    gpuRunC (456 * m) (g, k) = ({ g with clock := 0, line := g.line + m }, k) := by
  induction m with
  | zero =>
    intro g k h1 h2 h3
    rcases g with ⟨clk, ln, lc, bp, o0, o1, md, sy, sx, vr, oa, sp, ub, ii⟩
    simp only at h2
    subst h2
    simp [gpuRunC]
  | succ j ih =>
    intro g k h1 h2 h3
    rw [show 456 * (j + 1) = 456 + 456 * j by ring, runC_add]
    rw [runC_vblank_mid 456 g k (by omega) h1 (by omega) (by omega)]
    rw [ih _ k (by simpa using h1) rfl (by simp; omega)]
    have he : g.line + 1 + j = g.line + (j + 1) := by omega
    simp [he]

/-- A whole frame of the checked-in PPU: 143 visible lines, the line-143
HBlank that enters VBlank and raises the interrupt once, nine VBlank line
periods (lines 144-152), and back to line 0 — 69,768 cycles in total. -/
theorem gpuFrame69768 : gpuRunC 69768 (gpuNew, 0) = ({ gpuNew with is_interrupt := true }, 1) := by
  rw [show (69768 : Nat) = 456 * 143 + (456 + (456 * 8 + 456)) by norm_num,
    runC_add, runC_add, runC_add]
  rw [runC_visible_n 143 gpuNew 0 rfl rfl (by norm_num [gpuNew])]
  rw [runC_line143 _ 0 rfl rfl (by norm_num [gpuNew])]
  rw [runC_vblank_n 8 _ 1 rfl rfl (by norm_num [gpuNew])]
  rw [runC_vblank_end 456 _ 1 (by norm_num) rfl (by norm_num [gpuNew]) (by norm_num)]
  rfl

/-- C4 (counterexample): feeding exactly 70,224 cycles from the start of a
frame leaves LY at 1, not 0 — the checked-in PPU's frame is 69,768 cycles
because its VBlank lasts nine line periods, so by 70,224 cycles the next
frame's line 0 has already completed. -/
theorem c4_ly_is_one_after_70224 :
    (gpuRunC 70224 (gpuNew, 0)).1.line = 1 ∧ (gpuRunC 70224 (gpuNew, 0)).1.line ≠ 0 := by
  have h : gpuRunC 70224 (gpuNew, 0) =
      ({ { gpuNew with is_interrupt := true } with clock := 0, mode := .ScanlineOAM, line := 0 + 1 }, 1) := by
    rw [show (70224 : Nat) = 69768 + 456 by norm_num, runC_add, gpuFrame69768]
    rw [runC_visible _ 1 rfl rfl (by norm_num [gpuNew])]
    rfl
  rw [h]
  exact ⟨rfl, by decide⟩

/-- C4 (amended): the frame of the checked-in PPU is 153 lines × 456
cycles = 69,768 cycles — per visible line ScanlineOAM(80) →
ScanlineVRAM(172) → HBlank(204), then nine 456-cycle VBlank line periods
(lines 144-152) — after which LY is back at 0 in ScanlineOAM and exactly
one VBlank interrupt has been raised (at the line-143 HBlank → VBlank
transition). -/
theorem c4_frame_is_153_lines :
    gpuRunC (153 * 456) (gpuNew, 0) = ({ gpuNew with is_interrupt := true }, 1) := by
  rw [show (153 * 456 : Nat) = 69768 by norm_num]
  exact gpuFrame69768


theorem gpu_update_inv (g : Gpu) (clock : Nat) (h : GpuInv g) : GpuInv (g.update clock) := by
  obtain ⟨h1, h2⟩ := h
  unfold Gpu.update GpuInv
  rcases hm : g.mode with _ | _ | _ | _
  all_goals simp only [hm]
  · -- ScanlineOAM
    have hline : g.line ≤ 143 := h2 (by simp [hm])
    split_ifs with hc
    · simp
      omega
    · simp [hm]
      omega
  · -- ScanlineVRAM
    have hline : g.line ≤ 143 := h2 (by simp [hm])
    split_ifs with hc
    · simp
      omega
    · simp [hm]
      omega
  · -- HBlank
    have hline : g.line ≤ 143 := h2 (by simp [hm])
    split_ifs with hc hl
    · simp
      omega
    · simp
      omega
    · simp [hm]
      omega
  · -- VBlank
    split_ifs with hc hl
    · simp
    · simp
      omega
    · simp [hm]
      omega



theorem update_sprite_core (g : Gpu) (addr : Nat) :
    (g.update_sprite addr).line = g.line ∧ (g.update_sprite addr).mode = g.mode := by
  unfold Gpu.update_sprite
  rcases hm : addr &&& 0x03 with _ | _ | _ | _ | n <;> simp [hm]

theorem gpu_deviceStore_core (g g' : Gpu) (a v : Nat)
    (h : g.deviceStore a v = some g') : g'.line = g.line ∧ g'.mode = g.mode := by
  unfold Gpu.deviceStore at h
  by_cases h1 : 0x8000 ≤ a ∧ a ≤ 0x9fff
  · rw [if_pos h1] at h
    by_cases h2 : a - 0x8000 < 0x2000
    · rw [if_pos h2] at h
      cases h
      simp
    · rw [if_neg h2] at h
      exact Option.noConfusion h
  · rw [if_neg h1] at h
    by_cases h3 : 0xfe00 ≤ a ∧ a ≤ 0xfe9f
    · rw [if_pos h3] at h
      by_cases h4 : a - 0xfe00 < 0xa0
      · rw [if_pos h4] at h
        cases h
        exact update_sprite_core _ _
      · rw [if_neg h4] at h
        exact Option.noConfusion h
    · rw [if_neg h3] at h
      exact Option.noConfusion h


theorem err_cases {σ α : Type} {s s' : σ} {u : α}
    (h : (RunResult.err s : RunResult σ α) = .err s' ∨
         (RunResult.err s : RunResult σ α) = .ok s' u) : s' = s := by
  rcases h with h | h
  · cases h
    rfl
  · exact RunResult.noConfusion h

theorem ok_cases {σ α : Type} {s s' : σ} {a u : α}
    (h : (RunResult.ok s a : RunResult σ α) = .err s' ∨
         (RunResult.ok s a : RunResult σ α) = .ok s' u) : s' = s := by
  rcases h with h | h
  · exact RunResult.noConfusion h
  · cases h
    rfl

theorem panic_cases {σ α : Type} {s' : σ} {u : α} {C : Prop}
    (h : (RunResult.panic : RunResult σ α) = .err s' ∨
         (RunResult.panic : RunResult σ α) = .ok s' u) : C := by
  rcases h with h | h <;> exact RunResult.noConfusion h

theorem dmaLoop_gpu_core
    (store1 : Bus → Nat → Nat → RunResult Bus Unit)
    (hs : ∀ (b : Bus) (a v : Nat) (b' : Bus) (u : Unit),
      store1 b a v = .err b' ∨ store1 b a v = .ok b' u →
      b'.gpu.mode = b.gpu.mode ∧ (b'.gpu.line = b.gpu.line ∨ b'.gpu.line = 0)) :
    ∀ (n : Nat) (b : Bus) (addr i : Nat) (b' : Bus) (u : Unit),
      Bus.dmaLoop store1 n b addr i = .err b' ∨ Bus.dmaLoop store1 n b addr i = .ok b' u →
      b'.gpu.mode = b.gpu.mode ∧ (b'.gpu.line = b.gpu.line ∨ b'.gpu.line = 0) := by
  intro n
  induction n with
  | zero =>
    intro b addr i b' u h
    obtain rfl := ok_cases h
    simp
  | succ m ih =>
    intro b addr i b' u h
    unfold Bus.dmaLoop at h
    rcases hld : b.load (addr + i) with _ | byte
    · rw [hld] at h
      dsimp only at h
      exact panic_cases h
    · rw [hld] at h
      dsimp only at h
      rcases hst : store1 b (0xfe00 + i) byte with _ | bm | ⟨bm, um⟩
      · rw [hst] at h
        dsimp only at h
        exact panic_cases h
      · rw [hst] at h
        dsimp only at h
        exact panic_cases h
      · rw [hst] at h
        dsimp only at h
        have hcore := hs b (0xfe00 + i) byte bm um (Or.inr hst)
        have hrec := ih bm addr (i + 1) b' u h
        refine ⟨hrec.1.trans hcore.1, ?_⟩
        rcases hrec.2 with hr | hr
        · rcases hcore.2 with hc | hc
          · exact Or.inl (hr.trans hc)
          · exact Or.inr (hr.trans hc)
        · exact Or.inr hr

theorem storeF_gpu_core (fuel : Nat) :
    ∀ (b : Bus) (addr value : Nat) (b' : Bus) (u : Unit),
      Bus.storeF fuel b addr value = .err b' ∨ Bus.storeF fuel b addr value = .ok b' u →
      b'.gpu.mode = b.gpu.mode ∧ (b'.gpu.line = b.gpu.line ∨ b'.gpu.line = 0) := by
  induction fuel with
  | zero =>
    intro b addr value b' u h
    exact panic_cases h
  | succ f ih =>
    intro b addr value b' u h
    unfold Bus.storeF at h
    by_cases h1 : b.catridge.contains addr
    · rw [if_pos h1] at h
      rcases hm : b.catridge.store addr value with _ | m <;> rw [hm] at h <;> dsimp only at h
      · obtain rfl := err_cases h
        simp
      · obtain rfl := ok_cases h
        simp
    · rw [if_neg h1] at h
      by_cases h2 : b.ram.contains addr
      · rw [if_pos h2] at h
        rcases hm : b.ram.store addr value with _ | m <;> rw [hm] at h <;> dsimp only at h
        · obtain rfl := err_cases h
          simp
        · obtain rfl := ok_cases h
          simp
      · rw [if_neg h2] at h
        by_cases h3 : b.hram.contains addr
        · rw [if_pos h3] at h
          rcases hm : b.hram.store addr value with _ | m <;> rw [hm] at h <;> dsimp only at h
          · obtain rfl := err_cases h
            simp
          · obtain rfl := ok_cases h
            simp
        · rw [if_neg h3] at h
          by_cases h4 : b.unusable.contains addr
          · rw [if_pos h4] at h
            rcases hm : b.unusable.store addr value with _ | m <;> rw [hm] at h <;> dsimp only at h
            · obtain rfl := err_cases h
              simp
            · obtain rfl := ok_cases h
              simp
          · rw [if_neg h4] at h
            by_cases h5 : (0x8000 ≤ addr ∧ addr ≤ 0x9fff) ∨ (0xfe00 ≤ addr ∧ addr ≤ 0xfe9f)
            · rw [if_pos h5] at h
              rcases hm : b.gpu.deviceStore addr value with _ | g <;> rw [hm] at h <;> dsimp only at h
              · obtain rfl := err_cases h
                simp
              · obtain rfl := ok_cases h
                have hg := gpu_deviceStore_core b.gpu g addr value hm
                exact ⟨hg.2, Or.inl hg.1⟩
            · rw [if_neg h5] at h
              by_cases h6 : 0xff04 ≤ addr ∧ addr ≤ 0xff07
              · rw [if_pos h6] at h
                rcases hm : b.timer.deviceStore addr value with _ | m <;> rw [hm] at h <;> dsimp only at h
                · obtain rfl := err_cases h
                  simp
                · obtain rfl := ok_cases h
                  simp
              · rw [if_neg h6] at h
                by_cases h7 : addr = 0xff00
                · rw [if_pos h7] at h
                  obtain rfl := ok_cases h
                  simp
                · rw [if_neg h7] at h
                  by_cases h8 : addr = 0xff0f
                  · rw [if_pos h8] at h
                    obtain rfl := ok_cases h
                    simp [Bus.store_interrupt]
                  · rw [if_neg h8] at h
                    by_cases h9 : addr = 0xffff
                    · rw [if_pos h9] at h
                      obtain rfl := ok_cases h
                      simp
                    · rw [if_neg h9] at h
                      rcases hio : ioFromU16 addr with _ | io
                      · rw [hio] at h
                        dsimp only at h
                        obtain rfl := err_cases h
                        simp
                      · rw [hio] at h
                        cases io <;>
                          first
                            | (dsimp only at h
                               obtain rfl := ok_cases h
                               simp [Bus.store_interrupt])
                            | (dsimp only at h
                               exact dmaLoop_gpu_core (Bus.storeF f)
                                 (fun b a v b' u hh => ih b a v b' u hh)
                                 160 b (value <<< 8) 0 b' u h)

/-- C10: every bus state reachable from reset by PPU updates and stores
keeps the current line register within 0..153 (in fact within 0..152). -/
theorem c10_ly_bounded (b : Bus) (h : BusReach b) : b.gpu.line ≤ 153 := by
  have hinv : GpuInv b.gpu := by
    induction h with
    | init binary =>
      exact ⟨by simp [busNew, gpuNew], fun _ => by simp [busNew, gpuNew]⟩
    | update b0 clock hb ih => exact gpu_update_inv b0.gpu clock ih
    | storeOk b0 b' addr value hb hst ih =>
      have hcore := storeF_gpu_core 2 b0 addr value b' () (Or.inr hst)
      obtain ⟨i1, i2⟩ := ih
      refine ⟨?_, ?_⟩
      · rcases hcore.2 with hl | hl
        · rw [hl]
          exact i1
        · rw [hl]
          omega
      · intro hmv
        rw [hcore.1] at hmv
        rcases hcore.2 with hl | hl
        · rw [hl]
          exact i2 hmv
        · rw [hl]
          omega
    | storeErr b0 b' addr value hb hst ih =>
      have hcore := storeF_gpu_core 2 b0 addr value b' () (Or.inl hst)
      obtain ⟨i1, i2⟩ := ih
      refine ⟨?_, ?_⟩
      · rcases hcore.2 with hl | hl
        · rw [hl]
          exact i1
        · rw [hl]
          omega
      · intro hmv
        rw [hcore.1] at hmv
        rcases hcore.2 with hl | hl
        · rw [hl]
          exact i2 hmv
        · rw [hl]
          omega
  obtain ⟨i1, _⟩ := hinv
  omega

/-- C10 (witness): the reset bus is reachable and satisfies the bound. -/
theorem c10_ly_bounded_witness :
    BusReach (busNew []) ∧ (busNew []).gpu.line ≤ 153 :=
  ⟨BusReach.init [], c10_ly_bounded (busNew []) (BusReach.init [])⟩

end RuGameboy
